import Mathlib

/-!
Verification of the unusual-options scanner core (`src/strategy.py`,
`src/models.py`) against its natural-language specification.

Modelling conventions:
* Python floats are embedded as `ℚ` (the claims under study do not hinge on
  floating-point rounding), `math.log10` as `Real.logb 10`, so composite
  scores live in `ℝ`.
* Python `date` values are embedded as day numbers (`ℤ`); `date.today()` is
  an explicit `today : ℤ` argument.
* Optional fields are `Option _`; Python truthiness (`x or y`, `if x:`) is
  modelled explicitly (`none` and zero are falsy for numbers, `none` and the
  empty string for strings).
-/

namespace Scanner

/-- Canonical option-contract snapshot, mirroring the fields of
`models.OptionContractSnapshot` (all optional). -/
structure Contract where
  options_ticker : Option String := none
  underlying_ticker : Option String := none
  expiration_date : Option Int := none
  strike : Option Rat := none
  contract_type : Option String := none
  last_price : Option Rat := none
  bid : Option Rat := none
  ask : Option Rat := none
  volume : Option Int := none
  open_interest : Option Int := none
  sweep : Option Bool := none
  trade_count : Option Int := none
  trade_size : Option Int := none
  notional : Option Rat := none
  rvol : Option Rat := none
  iv_percentile : Option Rat := none
  unusual_score : Option Rat := none
  underlying_price : Option Rat := none
deriving DecidableEq

/-- Option-chain snapshot, mirroring `models.OptionChainSnapshot`. -/
structure Chain where
  underlying_symbol : Option String := none
  underlying_price : Option Rat := none
  contracts : List Contract := []
deriving DecidableEq

/-- The configuration surface consumed by `strategy.py` (the `unusual_*`
fields and `debug_mode` read from the `Settings` object).  The
`volume_oi_ratio` threshold is named `vol_oi_rat` here. -/
structure Settings where
  debug_mode : Bool := false
  unusual_min_dte_days : Int := 1
  unusual_max_dte_days : Int := 30
  unusual_min_notional : Rat := 100000
  unusual_min_volume : Int := 0
  unusual_min_open_interest : Int := 0
  unusual_min_vol_oi_rat : Rat := 1
  unusual_min_trade_count : Int := 0
  unusual_min_trade_size : Int := 0
  unusual_min_rvol : Rat := 0
  unusual_min_iv_pctile : Rat := 0
  unusual_max_otm_pct : Rat := 0
  unusual_spread_threshold_bps : Rat := 0
  unusual_min_unusual_score : Rat := 0
deriving DecidableEq

/-- `strategy.UnusualThresholds` (frozen dataclass). -/
structure UnusualThresholds where
  min_dte_days : Int
  max_dte_days : Int
  min_notional : Rat
  min_volume : Int
  min_open_interest : Int
  min_vol_oi_rat : Rat
  min_trade_count : Int
  min_trade_size : Int
  min_rvol : Rat
  min_iv_pctile : Rat
  max_otm_pct : Rat
  spread_threshold_bps : Rat
  min_unusual_score : Rat
deriving DecidableEq

/-- `strategy._get_effective_thresholds`. -/
def getEffectiveThresholds (s : Settings) : UnusualThresholds :=
  if s.debug_mode then
    { min_dte_days := 0
      max_dte_days := max s.unusual_max_dte_days 60
      min_notional := min s.unusual_min_notional 1000
      min_volume := min s.unusual_min_volume 1
      min_open_interest := min s.unusual_min_open_interest 0
      min_vol_oi_rat := min s.unusual_min_vol_oi_rat 0
      min_trade_count := min s.unusual_min_trade_count 0
      min_trade_size := min s.unusual_min_trade_size 0
      min_rvol := min s.unusual_min_rvol 0
      min_iv_pctile := min s.unusual_min_iv_pctile 0
      max_otm_pct := max s.unusual_max_otm_pct 0
      spread_threshold_bps := max s.unusual_spread_threshold_bps 0
      min_unusual_score := min s.unusual_min_unusual_score 0 }
  else
    { min_dte_days := s.unusual_min_dte_days
      max_dte_days := s.unusual_max_dte_days
      min_notional := s.unusual_min_notional
      min_volume := s.unusual_min_volume
      min_open_interest := s.unusual_min_open_interest
      min_vol_oi_rat := s.unusual_min_vol_oi_rat
      min_trade_count := s.unusual_min_trade_count
      min_trade_size := s.unusual_min_trade_size
      min_rvol := s.unusual_min_rvol
      min_iv_pctile := s.unusual_min_iv_pctile
      max_otm_pct := s.unusual_max_otm_pct
      spread_threshold_bps := s.unusual_spread_threshold_bps
      min_unusual_score := s.unusual_min_unusual_score }

/-- Python `x or y` on optional floats: `x` is falsy when it is `None` or
zero, in which case the result is `y`. -/
def orQ (x y : Option Rat) : Option Rat :=
  match x with
  | some v => if v = 0 then y else some v
  | none => y

/-- Truthiness of an optional float: present and nonzero. -/
def truthyQ (x : Option Rat) : Bool :=
  match x with
  | some v => decide (v ≠ 0)
  | none => false

/-- Truthiness of an optional string: present and nonempty.  Used for
`contract.contract_type`. -/
def truthyS (x : Option String) : Bool :=
  match x with
  | some v => decide (v ≠ "")
  | none => false

/-- `strategy._calculate_mid_price`. -/
def calculateMidPrice (c : Contract) : Option Rat :=
  match c.bid, c.ask with
  | some b, some a => some ((b + a) / 2)
  | _, _ => none

/-- `strategy._resolve_underlying_price` (`contract.underlying_price or
chain.underlying_price`). -/
def resolveUnderlyingPrice (c : Contract) (chain : Chain) : Option Rat :=
  orQ c.underlying_price chain.underlying_price

/-- `strategy._calculate_notional`. -/
def calculateNotional (c : Contract) (price : Option Rat) (volume : Option Int) : Rat :=
  match c.notional with
  | some n =>
    if 0 < n then n else
      match price, volume with
      | some p, some v => p * v * 100
      | _, _ => 0
  | none =>
    match price, volume with
    | some p, some v => p * v * 100
    | _, _ => 0

/-- `strategy._calculate_ratio` (volume / open-interest quotient). -/
def calcVolOiRat (volume : Option Int) (oi : Option Int) : Rat :=
  match volume with
  | none => 0
  | some v =>
    if v = 0 then 0 else
      match oi with
      | none => 0
      | some o => if o = 0 then 0 else (v : Rat) / (o : Rat)

/-- The days-to-expiration bonus term of `strategy._calculate_score`. -/
def dteBonus (dteDays maxDte : Int) : Rat :=
  if 0 < maxDte then max (((maxDte : Rat) - (dteDays : Rat)) / (maxDte : Rat)) 0 else 0

/-- `strategy._calculate_score`: capped quotient + `log10(max(notional, 1))`
+ DTE bonus.  No rounding and no clamping are applied. -/
noncomputable def calculateScore (notional rat : Rat) (dteDays maxDte : Int) : Real :=
  ((min rat 10 : Rat) : Real) + Real.logb 10 ((max notional 1 : Rat) : Real)
    + ((dteBonus dteDays maxDte : Rat) : Real)

/-- `strategy._detect_sweep`. -/
def detectSweep (c : Contract) (notional rat minNotional : Rat) : Bool :=
  if c.sweep = some true then true
  else
    let volume := c.volume.getD 0
    let oi := c.open_interest.getD 0
    let aggressive :=
      if 0 < oi then decide (5 * oi ≤ volume) else decide ((3 : Rat) ≤ rat)
    let notionalOk := decide (2 * minNotional ≤ notional)
    let priceOk :=
      match calculateMidPrice c, c.last_price with
      | some m, some lp => decide (m ≤ lp)
      | _, _ => true
    aggressive && notionalOk && priceOk

/-- Emitted candidate, mirroring `models.UnusualOptionsCandidate` (the
`volume_oi_ratio` field is named `vol_oi_rat`). -/
structure Candidate where
  options_ticker : String
  underlying_ticker : String
  direction : String
  expiration_date : Option Int
  strike : Rat
  contract_type : String
  last_price : Option Rat
  volume : Option Int
  open_interest : Option Int
  notional : Rat
  vol_oi_rat : Rat
  dte_days : Int
  score : Real
  is_sweep : Bool
  flow_type : String
  debug_alert : Bool

/-- Python `x or y or ""` on optional strings (empty string is falsy). -/
def orStr (x y : Option String) : String :=
  match x with
  | some v => if v = "" then y.getD "" else v
  | none => y.getD ""

/-- `strategy._candidate_from_contract`. -/
def candidateFromContract (c : Contract) (chain : Chain) (notional rat : Rat)
    (dteDays : Int) (score : Real) (isSweep : Bool) (flowType : String)
    (debugAlert : Bool := false) : Candidate :=
  { options_ticker := c.options_ticker.getD ""
    underlying_ticker := orStr c.underlying_ticker chain.underlying_symbol
    direction := if (c.contract_type.getD "").toLower = "call" then "BULLISH" else "BEARISH"
    expiration_date := c.expiration_date
    strike := c.strike.getD 0
    contract_type := (c.contract_type.getD "").toUpper
    last_price := c.last_price
    volume := c.volume
    open_interest := c.open_interest
    notional := notional
    vol_oi_rat := rat
    dte_days := dteDays
    score := score
    is_sweep := isSweep
    flow_type := flowType
    debug_alert := debugAlert }

/-- The `if field is not None and field < floor: reasons.append(name)`
pattern of the filtering loop: a floor on an optional field, skipped when
the field is absent. -/
def optFloor {a : Type} [LT a] [DecidableRel ((· < ·) : a → a → Prop)]
    (o : Option a) (m : a) (name : String) : List String :=
  match o with
  | some v => if v < m then [name] else []
  | none => []

/-- The out-of-the-money predicate of the filtering loop: active only when
`max_otm_pct > 0` and both an underlying price and a strike are truthy. -/
def otmReason (t : UnusualThresholds) (chain : Chain) (c : Contract) : List String :=
  if 0 < t.max_otm_pct then
    match resolveUnderlyingPrice c chain with
    | some u =>
      if u ≠ 0 ∧ truthyQ c.strike = true then
        (if |(c.strike.getD 0 - u) / u| * 100 > t.max_otm_pct then ["otm_pct"] else [])
      else []
    | none => []
  else []

/-- The bid/ask-spread predicate of the filtering loop: active only when
`spread_threshold_bps > 0`, both quotes are present, and the mid price is
truthy and positive. -/
def spreadReason (t : UnusualThresholds) (c : Contract) : List String :=
  if 0 < t.spread_threshold_bps then
    match c.bid, c.ask with
    | some b, some a =>
      match calculateMidPrice c with
      | some m =>
        if m ≠ 0 ∧ 0 < m then
          (if (a - b) / m * 10000 > t.spread_threshold_bps then ["spread_bps"] else [])
        else []
      | none => []
    | _, _ => []
  else []

/-- The rejection reasons accumulated for one contract by the filtering loop
of `strategy.find_unusual_activity`, with the predicates in the source's
order.  A contract missing its expiration date or contract type is rejected
immediately (the loop `continue`s), so its list is exactly
`["missing_expiry_or_type"]`. -/
def rejectionReasons (t : UnusualThresholds) (today : Int) (chain : Chain)
    (c : Contract) : List String :=
  if c.expiration_date.isNone || !truthyS c.contract_type then
    ["missing_expiry_or_type"]
  else
    let dteDays := c.expiration_date.getD 0 - today
    let rDte := if dteDays < t.min_dte_days ∨ dteDays > t.max_dte_days then ["dte"] else []
    let volume := c.volume.getD 0
    let rVol := if volume < t.min_volume then ["volume"] else []
    let oi := c.open_interest.getD 0
    let rOi := if oi < t.min_open_interest then ["open_interest"] else []
    let rTc := optFloor c.trade_count t.min_trade_count "trade_count"
    let rTs := optFloor c.trade_size t.min_trade_size "trade_size"
    let price := orQ c.last_price (calculateMidPrice c)
    let rPrice := if price.isNone ∧ c.notional.getD 0 = 0 then ["price"] else []
    let notional := calculateNotional c price c.volume
    let rNotional := if notional < t.min_notional then ["notional"] else []
    let rat := calcVolOiRat c.volume c.open_interest
    let rRat := if rat < t.min_vol_oi_rat then ["volume_oi_ratio"] else []
    let rRvol := optFloor c.rvol t.min_rvol "rvol"
    let rIv := optFloor c.iv_percentile t.min_iv_pctile "iv_pctile"
    let rUs := optFloor c.unusual_score t.min_unusual_score "unusual_score"
    let rOtm := otmReason t chain c
    let rSpread := spreadReason t c
    rDte ++ rVol ++ rOi ++ rTc ++ rTs ++ rPrice ++ rNotional ++ rRat ++ rRvol
      ++ rIv ++ rUs ++ rOtm ++ rSpread

/-- One iteration of the filtering loop of `strategy.find_unusual_activity`:
either the recorded rejection reasons, or the emitted candidate (which is
scored and sweep-classified only after every predicate passed). -/
noncomputable def evalContract (t : UnusualThresholds) (today : Int)
    (chain : Chain) (c : Contract) : List String ⊕ Candidate :=
  let reasons := rejectionReasons t today chain c
  if reasons = [] then
    let dteDays := c.expiration_date.getD 0 - today
    let price := orQ c.last_price (calculateMidPrice c)
    let notional := calculateNotional c price c.volume
    let rat := calcVolOiRat c.volume c.open_interest
    let score := calculateScore notional rat dteDays t.max_dte_days
    let isSweep := detectSweep c notional rat t.min_notional
    let flowType := if isSweep then "SWEEP" else "STANDARD"
    Sum.inr (candidateFromContract c chain notional rat dteDays score isSweep flowType)
  else
    Sum.inl reasons

/-- The accepted candidates of one cycle, in insertion order. -/
noncomputable def passingCandidates (chain : Chain) (s : Settings) (today : Int) :
    List Candidate :=
  chain.contracts.filterMap fun c =>
    match evalContract (getEffectiveThresholds s) today chain c with
    | Sum.inr cand => some cand
    | Sum.inl _ => none

/-- Comparator of the final ranking (`candidates.sort(key=score,
reverse=True)`): descending by score. -/
noncomputable def scoreDesc (a b : Candidate) : Bool :=
  decide (b.score ≤ a.score)

/-- One iteration of the scoring loop of `strategy._build_debug_candidates`:
the `(notional, contract, ratio, score, dte_days)` tuple for a contract with
an expiration, a type, and a resolvable price. -/
noncomputable def debugScored (today : Int) (c : Contract) :
    Option (Rat × Contract × Rat × Real × Int) :=
  if c.expiration_date.isNone || !truthyS c.contract_type then none
  else
    let dteDays := c.expiration_date.getD 0 - today
    match orQ c.last_price (calculateMidPrice c) with
    | none => none
    | some p =>
      let notional := calculateNotional c (some p) c.volume
      let rat := calcVolOiRat c.volume c.open_interest
      let score := calculateScore notional rat (max dteDays 0) (max dteDays 1)
      some (notional, c, rat, score, dteDays)

/-- `strategy._build_debug_candidates`: score every contract with a price,
rank by notional descending, keep the top `maxAlerts`. -/
noncomputable def buildDebugCandidates (contracts : List Contract) (chain : Chain)
    (today : Int) (maxAlerts : Nat := 2) : List Candidate :=
  let scored := contracts.filterMap (debugScored today)
  let ranked := scored.mergeSort fun x y => decide (y.1 ≤ x.1)
  (ranked.take maxAlerts).map fun item =>
    candidateFromContract item.2.1 chain item.1 item.2.2.1 item.2.2.2.2
      item.2.2.2.1 false "DEBUG" true

/-- `strategy.find_unusual_activity`: filter, score and rank the chain's
contracts; in debug mode with no survivors, fall back to the top debug
candidates. -/
noncomputable def findUnusualActivity (chain : Chain) (s : Settings) (today : Int) :
    List Candidate :=
  let candidates := passingCandidates chain s today
  let sorted := candidates.mergeSort scoreDesc
  if s.debug_mode && candidates.isEmpty then
    buildDebugCandidates chain.contracts chain today
  else
    sorted

/-! ### Division-checked variant of the pipeline

Every division of the source is replaced by `divChk`, which fails on a zero
divisor, and `math.log10` by `log10Chk`, which fails on a non-positive
argument.  The totality claim is that this checked pipeline never fails and
agrees with the plain one. -/

/-- Division that signals a zero divisor instead of defaulting. -/
def divChk (a b : Rat) : Option Rat :=
  if b = 0 then none else some (a / b)

/-- Checked `_calculate_mid_price` (the only division is by the constant 2). -/
def calculateMidPriceChk (c : Contract) : Option (Option Rat) :=
  match c.bid, c.ask with
  | some b, some a => (divChk (b + a) 2).map some
  | _, _ => some none

/-- Checked `_calculate_ratio`. -/
def calcVolOiRatChk (volume : Option Int) (oi : Option Int) : Option Rat :=
  match volume with
  | none => some 0
  | some v =>
    if v = 0 then some 0 else
      match oi with
      | none => some 0
      | some o => if o = 0 then some 0 else divChk (v : Rat) (o : Rat)

/-- Checked DTE bonus. -/
def dteBonusChk (dteDays maxDte : Int) : Option Rat :=
  if 0 < maxDte then
    (divChk ((maxDte : Rat) - (dteDays : Rat)) (maxDte : Rat)).map fun q => max q 0
  else some 0

/-- `math.log10` with its domain check (fails on non-positive arguments). -/
noncomputable def log10Chk (x : Rat) : Option Real :=
  if x ≤ 0 then none else some (Real.logb 10 (x : Real))

/-- Checked `_calculate_score`. -/
noncomputable def calculateScoreChk (notional rat : Rat) (dteDays maxDte : Int) :
    Option Real :=
  match log10Chk (max notional 1), dteBonusChk dteDays maxDte with
  | some l, some bns => some (((min rat 10 : Rat) : Real) + l + ((bns : Rat) : Real))
  | _, _ => none

/-- Checked out-of-the-money predicate. -/
def otmReasonChk (t : UnusualThresholds) (chain : Chain) (c : Contract) :
    Option (List String) :=
  if 0 < t.max_otm_pct then
    match resolveUnderlyingPrice c chain with
    | some u =>
      if u ≠ 0 ∧ truthyQ c.strike = true then
        (divChk (c.strike.getD 0 - u) u).map fun q =>
          if |q| * 100 > t.max_otm_pct then ["otm_pct"] else []
      else some []
    | none => some []
  else some []

/-- Checked bid/ask-spread predicate. -/
def spreadReasonChk (t : UnusualThresholds) (c : Contract) (mid : Option Rat) :
    Option (List String) :=
  if 0 < t.spread_threshold_bps then
    match c.bid, c.ask with
    | some b, some a =>
      match mid with
      | some m =>
        if m ≠ 0 ∧ 0 < m then
          (divChk (a - b) m).map fun q =>
            if q * 10000 > t.spread_threshold_bps then ["spread_bps"] else []
        else some []
      | none => some []
    | _, _ => some []
  else some []

/-- Checked rejection-reason accumulation. -/
def rejectionReasonsChk (t : UnusualThresholds) (today : Int) (chain : Chain)
    (c : Contract) : Option (List String) :=
  if c.expiration_date.isNone || !truthyS c.contract_type then
    some ["missing_expiry_or_type"]
  else do
    let dteDays := c.expiration_date.getD 0 - today
    let rDte := if dteDays < t.min_dte_days ∨ dteDays > t.max_dte_days then ["dte"] else []
    let volume := c.volume.getD 0
    let rVol := if volume < t.min_volume then ["volume"] else []
    let oi := c.open_interest.getD 0
    let rOi := if oi < t.min_open_interest then ["open_interest"] else []
    let rTc := optFloor c.trade_count t.min_trade_count "trade_count"
    let rTs := optFloor c.trade_size t.min_trade_size "trade_size"
    let mid ← calculateMidPriceChk c
    let price := orQ c.last_price mid
    let rPrice := if price.isNone ∧ c.notional.getD 0 = 0 then ["price"] else []
    let notional := calculateNotional c price c.volume
    let rNotional := if notional < t.min_notional then ["notional"] else []
    let rat ← calcVolOiRatChk c.volume c.open_interest
    let rRat := if rat < t.min_vol_oi_rat then ["volume_oi_ratio"] else []
    let rRvol := optFloor c.rvol t.min_rvol "rvol"
    let rIv := optFloor c.iv_percentile t.min_iv_pctile "iv_pctile"
    let rUs := optFloor c.unusual_score t.min_unusual_score "unusual_score"
    let rOtm ← otmReasonChk t chain c
    let rSpread ← spreadReasonChk t c mid
    return rDte ++ rVol ++ rOi ++ rTc ++ rTs ++ rPrice ++ rNotional ++ rRat ++ rRvol
      ++ rIv ++ rUs ++ rOtm ++ rSpread

/-- Checked per-contract evaluation. -/
noncomputable def evalContractChk (t : UnusualThresholds) (today : Int)
    (chain : Chain) (c : Contract) : Option (List String ⊕ Candidate) := do
  let reasons ← rejectionReasonsChk t today chain c
  if reasons = [] then
    let dteDays := c.expiration_date.getD 0 - today
    let mid ← calculateMidPriceChk c
    let price := orQ c.last_price mid
    let notional := calculateNotional c price c.volume
    let rat ← calcVolOiRatChk c.volume c.open_interest
    let score ← calculateScoreChk notional rat dteDays t.max_dte_days
    let isSweep := detectSweep c notional rat t.min_notional
    let flowType := if isSweep then "SWEEP" else "STANDARD"
    return Sum.inr (candidateFromContract c chain notional rat dteDays score isSweep flowType)
  else
    return Sum.inl reasons

/-- Checked debug-candidate scoring step. -/
noncomputable def debugScoredChk (today : Int) (c : Contract) :
    Option (Option (Rat × Contract × Rat × Real × Int)) := do
  if c.expiration_date.isNone || !truthyS c.contract_type then
    return none
  else
    let dteDays := c.expiration_date.getD 0 - today
    let mid ← calculateMidPriceChk c
    match orQ c.last_price mid with
    | none => return none
    | some p =>
      let notional := calculateNotional c (some p) c.volume
      let rat ← calcVolOiRatChk c.volume c.open_interest
      let score ← calculateScoreChk notional rat (max dteDays 0) (max dteDays 1)
      return some ((notional, c, rat, score, dteDays) : Rat × Contract × Rat × Real × Int)

/-- Checked `_build_debug_candidates`. -/
noncomputable def buildDebugCandidatesChk (contracts : List Contract) (chain : Chain)
    (today : Int) (maxAlerts : Nat := 2) : Option (List Candidate) := do
  let scoredOpt ← contracts.mapM (debugScoredChk today)
  let scored := scoredOpt.filterMap id
  let ranked := scored.mergeSort fun x y => decide (y.1 ≤ x.1)
  return (ranked.take maxAlerts).map fun item =>
    candidateFromContract item.2.1 chain item.1 item.2.2.1 item.2.2.2.2
      item.2.2.2.1 false "DEBUG" true

/-- Checked `find_unusual_activity`. -/
noncomputable def findUnusualActivityChk (chain : Chain) (s : Settings) (today : Int) :
    Option (List Candidate) := do
  let results ← chain.contracts.mapM fun c =>
    evalContractChk (getEffectiveThresholds s) today chain c
  let candidates := results.filterMap fun r =>
    match r with
    | Sum.inr cand => some cand
    | Sum.inl _ => none
  let sorted := candidates.mergeSort scoreDesc
  if s.debug_mode && candidates.isEmpty then
    buildDebugCandidatesChk chain.contracts chain today
  else
    return sorted

/-! ### The snapshot normalizer (`models.OptionContractSnapshot`)

Raw provider records are nested JSON-like mappings.  A mapping is modelled
as an association list from string keys to optional values; `none` stands
for Python `None` (the code only ever reads keys through `.get`, which
conflates an absent key with a key bound to `None`). -/

/-- A JSON-like value of a raw snapshot record. -/
inductive Val where
  | s (x : String)
  | i (n : Int)
  | q (x : Rat)
  | b (x : Bool)
  | date (n : Int)
  | dict (entries : List (String × Option Val))

/-- A raw record: an insertion-ordered mapping. -/
abbrev RawDict := List (String × Option Val)

/-- Python `values.get(key)`: `none` for an absent key or a `None` value. -/
def dget (d : RawDict) (k : String) : Option Val :=
  match List.lookup k d with
  | some v => v
  | none => none

/-- Python `values[key] = v`. -/
def dset (d : RawDict) (k : String) (v : Option Val) : RawDict :=
  (k, v) :: d.filter fun p => p.1 ≠ k

/-- The loop of `models._get_nested`: walk the remaining dotted parts,
returning `None` as soon as the current value is not a mapping. -/
def nestedGo : Option Val → List String → Option Val
  | cur, [] => cur
  | cur, p :: rest =>
    match cur with
    | some (Val.dict dd) => nestedGo (dget dd p) rest
    | _ => none

/-- `models._get_nested`, with the dotted key pre-split on `"."` (the key
`"details.symbol"` is embedded as `["details", "symbol"]`).  The source
special-cases undotted keys as a plain `.get`, which coincides with the
one-step walk, so both kinds of key go through `nestedGo` uniformly. -/
def getNested (d : RawDict) (key : List String) : Option Val :=
  nestedGo (some (Val.dict d)) key

/-- `_first(*keys)` of `normalize_fields`: the first source path whose value
is not `None`. -/
def firstOf (d : RawDict) : List (List String) → Option Val
  | [] => none
  | k :: ks =>
    match getNested d k with
    | some v => some v
    | none => firstOf d ks

/-- One `if values.get(field) is None: values[field] = _first(...)` block of
`normalize_fields`. -/
def normStep (d : RawDict) (field : String) (aliases : List (List String)) : RawDict :=
  if (dget d field).isNone then dset d field (firstOf d aliases) else d

/-- The alias table of `models.OptionContractSnapshot.normalize_fields`:
each canonical field with its ordered candidate source paths, in the
source's field order. -/
def normTable : List (String × List (List String)) :=
  [("options_ticker",
    [["symbol"], ["ticker"], ["options_ticker"], ["contract_symbol"],
     ["details", "symbol"], ["option", "symbol"]]),
   ("underlying_ticker",
    [["underlying_symbol"], ["underlying_ticker"], ["underlying", "symbol"],
     ["underlying", "ticker"], ["underlying_asset", "symbol"]]),
   ("expiration_date",
    [["expiration"], ["expiration_date"], ["exp_date"], ["expiry"],
     ["details", "expiration_date"], ["details", "expiration"],
     ["contract", "expiration_date"]]),
   ("strike",
    [["strike"], ["strike_price"], ["details", "strike_price"],
     ["contract", "strike_price"]]),
   ("last_price",
    [["last"], ["last_price"], ["last_trade_price"], ["mark"], ["mid"],
     ["quote", "last"], ["quote", "last_price"], ["day", "last"]]),
   ("bid",
    [["bid"], ["bid_price"], ["best_bid"], ["quote", "bid"], ["quote", "bid_price"]]),
   ("ask",
    [["ask"], ["ask_price"], ["best_ask"], ["quote", "ask"], ["quote", "ask_price"]]),
   ("contract_type",
    [["contract_type"], ["option_type"], ["type"], ["right"],
     ["details", "contract_type"], ["details", "type"], ["contract", "type"]]),
   ("open_interest",
    [["oi"], ["open_interest"], ["openInterest"], ["day", "open_interest"]]),
   ("volume", [["volume"], ["vol"], ["day", "volume"]]),
   ("sweep", [["sweep"], ["is_sweep"], ["isSweep"]]),
   ("trade_count", [["trade_count"], ["trades"], ["day", "trades"]]),
   ("trade_size", [["trade_size"], ["size"], ["day", "trade_size"]]),
   ("notional", [["notional"], ["premium"], ["trade_value"], ["day", "notional"]]),
   ("rvol", [["rvol"], ["relative_volume"], ["day", "rvol"]]),
   ("iv_percentile",
    [["iv_percentile"], ["iv_pctile"], ["ivRank"], ["iv_percentile_52w"]]),
   ("unusual_score", [["unusual_score"], ["score"]]),
   ("underlying_price",
    [["underlying_price"], ["underlying", "price"], ["underlying", "last"]])]

/-- `models.OptionContractSnapshot.normalize_fields`: resolve each canonical
field from its ordered alias paths, one `normStep` per field in the
source's order. -/
def normalizeFields (d : RawDict) : RawDict :=
  normTable.foldl (fun d e => normStep d e.1 e.2) d

/-- The canonical field names of an `OptionContractSnapshot`. -/
def canonKeys : List String :=
  ["options_ticker", "underlying_ticker", "expiration_date", "strike",
   "contract_type", "last_price", "bid", "ask", "volume", "open_interest",
   "sweep", "trade_count", "trade_size", "notional", "rvol", "iv_percentile",
   "unusual_score", "underlying_price"]

/-- Decode an optional string field (`None` is allowed and kept). -/
def decS : Option Val → Option (Option String)
  | none => some none
  | some (Val.s x) => some (some x)
  | some _ => none

/-- Decode an optional integer field. -/
def decI : Option Val → Option (Option Int)
  | none => some none
  | some (Val.i n) => some (some n)
  | some _ => none

/-- Decode an optional float field (an integer value is coerced). -/
def decQ : Option Val → Option (Option Rat)
  | none => some none
  | some (Val.q x) => some (some x)
  | some (Val.i n) => some (some (n : Rat))
  | some _ => none

/-- Decode an optional boolean field. -/
def decB : Option Val → Option (Option Bool)
  | none => some none
  | some (Val.b x) => some (some x)
  | some _ => none

/-- Decode an optional date field. -/
def decD : Option Val → Option (Option Int)
  | none => some none
  | some (Val.date n) => some (some n)
  | some _ => none

/-- Whether every canonical field of a (normalized) record is either absent,
`None`, or of the field's expected type. -/
def typedOk (d : RawDict) : Bool :=
  (decS (dget d "options_ticker")).isSome && (decS (dget d "underlying_ticker")).isSome
    && (decD (dget d "expiration_date")).isSome && (decQ (dget d "strike")).isSome
    && (decS (dget d "contract_type")).isSome && (decQ (dget d "last_price")).isSome
    && (decQ (dget d "bid")).isSome && (decQ (dget d "ask")).isSome
    && (decI (dget d "volume")).isSome && (decI (dget d "open_interest")).isSome
    && (decB (dget d "sweep")).isSome && (decI (dget d "trade_count")).isSome
    && (decI (dget d "trade_size")).isSome && (decQ (dget d "notional")).isSome
    && (decQ (dget d "rvol")).isSome && (decQ (dget d "iv_percentile")).isSome
    && (decQ (dget d "unusual_score")).isSome && (decQ (dget d "underlying_price")).isSome

/-- The contract read off a (normalized) record, each canonical field
defaulting to `none`. -/
def extractContract (d : RawDict) : Contract :=
  { options_ticker := (decS (dget d "options_ticker")).getD none
    underlying_ticker := (decS (dget d "underlying_ticker")).getD none
    expiration_date := (decD (dget d "expiration_date")).getD none
    strike := (decQ (dget d "strike")).getD none
    contract_type := (decS (dget d "contract_type")).getD none
    last_price := (decQ (dget d "last_price")).getD none
    bid := (decQ (dget d "bid")).getD none
    ask := (decQ (dget d "ask")).getD none
    volume := (decI (dget d "volume")).getD none
    open_interest := (decI (dget d "open_interest")).getD none
    sweep := (decB (dget d "sweep")).getD none
    trade_count := (decI (dget d "trade_count")).getD none
    trade_size := (decI (dget d "trade_size")).getD none
    notional := (decQ (dget d "notional")).getD none
    rvol := (decQ (dget d "rvol")).getD none
    iv_percentile := (decQ (dget d "iv_percentile")).getD none
    unusual_score := (decQ (dget d "unusual_score")).getD none
    underlying_price := (decQ (dget d "underlying_price")).getD none }

/-- Pydantic model construction from a (normalized) record: every canonical
field is optional and defaults to `none`; a present but ill-typed value is a
validation failure. -/
def buildContract (d : RawDict) : Option Contract :=
  if typedOk d then some (extractContract d) else none

/-- The dictionary form of a canonical `Contract`: exactly the canonical
keys, each bound to the field's (optional) value. -/
def contractToDict (c : Contract) : RawDict :=
  [("options_ticker", c.options_ticker.map Val.s),
   ("underlying_ticker", c.underlying_ticker.map Val.s),
   ("expiration_date", c.expiration_date.map Val.date),
   ("strike", c.strike.map Val.q),
   ("contract_type", c.contract_type.map Val.s),
   ("last_price", c.last_price.map Val.q),
   ("bid", c.bid.map Val.q),
   ("ask", c.ask.map Val.q),
   ("volume", c.volume.map Val.i),
   ("open_interest", c.open_interest.map Val.i),
   ("sweep", c.sweep.map Val.b),
   ("trade_count", c.trade_count.map Val.i),
   ("trade_size", c.trade_size.map Val.i),
   ("notional", c.notional.map Val.q),
   ("rvol", c.rvol.map Val.q),
   ("iv_percentile", c.iv_percentile.map Val.q),
   ("unusual_score", c.unusual_score.map Val.q),
   ("underlying_price", c.underlying_price.map Val.q)]

/-- A record whose bound keys are all canonical field names (the shape of
`contractToDict` output, possibly after normalization steps): every
non-canonical key reads as `None`. -/
def CanonShaped (d : RawDict) : Prop :=
  ∀ k, k ∉ canonKeys → dget d k = none

/-- Modelled from the spec (§4.1): the Normalizer's contract as the
specification words it — "a canonical Contract, or a normalization failure
when mandatory structural fields (ticker) cannot be resolved at all".  This
is the specification-side comparison point; the code itself never fails on
a missing ticker. -/
def normalizeRecordSpec (d : RawDict) : Option Contract :=
  if (dget (normalizeFields d) "options_ticker").isNone then none
  else buildContract (normalizeFields d)

/-! ### Specification-side definitions and concrete scenarios -/

/-- The sweep rule in the specification's wording, for comparison with
`detectSweep`: its condition (c) compares the *resolved* last price (the
last-price-or-mid fallback of the feature extractor, §4.3) against the mid
price, trivially satisfied when the mid price cannot be computed. -/
def detectSweepSpec (c : Contract) (notional rat minNotional : Rat) : Bool :=
  if c.sweep = some true then true
  else
    let volume := c.volume.getD 0
    let oi := c.open_interest.getD 0
    let aggressive :=
      if 0 < oi then decide (5 * oi ≤ volume) else decide ((3 : Rat) ≤ rat)
    let notionalOk := decide (2 * minNotional ≤ notional)
    let priceOk :=
      match calculateMidPrice c, orQ c.last_price (calculateMidPrice c) with
      | some m, some rp => decide (m ≤ rp)
      | _, _ => true
    aggressive && notionalOk && priceOk

/-- A permissive production configuration (all floors zero, OTM and spread
filters disabled, DTE window `[0, 10]`, no debug mode). -/
def settingsP : Settings :=
  { debug_mode := false
    unusual_min_dte_days := 0
    unusual_max_dte_days := 10
    unusual_min_notional := 0
    unusual_min_volume := 0
    unusual_min_open_interest := 0
    unusual_min_vol_oi_rat := 0
    unusual_min_trade_count := 0
    unusual_min_trade_size := 0
    unusual_min_rvol := 0
    unusual_min_iv_pctile := 0
    unusual_max_otm_pct := 0
    unusual_spread_threshold_bps := 0
    unusual_min_unusual_score := 0 }

/-- A contract that clears every predicate of `settingsP` at `today = 0`:
5 days to expiration, volume 10 against open interest 1, a precomputed
notional of 1,000,000. -/
def contractP : Contract :=
  { options_ticker := some "O:TST"
    underlying_ticker := some "TST"
    expiration_date := some 5
    strike := some 100
    contract_type := some "call"
    last_price := some 1
    bid := some 1
    ask := some 1
    volume := some 10
    open_interest := some 1
    notional := some 1000000
    underlying_price := some 100 }

/-- A one-contract chain around `contractP`. -/
def chainP : Chain :=
  { underlying_symbol := some "TST", contracts := [contractP] }

/-- The candidate emitted for `contractP` (quotient 10 capped at 10,
`log10` of 1,000,000, DTE bonus 1/2). -/
noncomputable def candP : Candidate :=
  candidateFromContract contractP chainP 1000000 10 5
    (calculateScore 1000000 10 5 10) true "SWEEP"

/-- A configuration whose only non-permissive value is a negative
`min_dte_days`. -/
def settings3 : Settings :=
  { settingsP with unusual_min_dte_days := -1 }

/-- A contract whose last price is exactly 0 while both quotes are present
(mid price 2): aggressive volume (100 ≥ 5 × 10). -/
def contract4 : Contract :=
  { last_price := some 0
    bid := some 1
    ask := some 3
    volume := some 100
    open_interest := some 10 }

/-- `settingsP` with the unusual-score floor raised to 1000: the floor only
applies to the precomputed `unusual_score` field, which `contractP` lacks. -/
def settings2 : Settings :=
  { settingsP with unusual_min_unusual_score := 1000 }

/-- `contractP` with an enormous precomputed notional of `10 ^ 95`. -/
def contract1 : Contract :=
  { contractP with notional := some ((10 : Rat) ^ (95 : Nat)) }

/-- A one-contract chain around `contract1`. -/
def chain1 : Chain :=
  { underlying_symbol := some "TST", contracts := [contract1] }

/-- The candidate emitted for `contract1`: its score is
`10 + log10(10^95) + 1/2 = 211/2`, well above 100. -/
noncomputable def cand1 : Candidate :=
  candidateFromContract contract1 chain1 ((10 : Rat) ^ (95 : Nat)) 10 5
    (calculateScore ((10 : Rat) ^ (95 : Nat)) 10 5 10) true "SWEEP"

/-- Debug-mode configuration whose active OTM ceiling (0.5%) rejects every
contract of `chain8` on the main path. -/
def settings8 : Settings :=
  { settingsP with debug_mode := true, unusual_max_otm_pct := 1 / 2 }

/-- Far out-of-the-money contract, notional 10,000, no volume: debug score
`0 + log10(10^4) + 0 = 4`. -/
def contractA8 : Contract :=
  { expiration_date := some 5
    contract_type := some "call"
    last_price := some 1
    strike := some 200
    notional := some 10000 }

/-- Far out-of-the-money contract, notional 1,000, volume 10 against open
interest 1: debug score `10 + log10(10^3) + 0 = 13`. -/
def contractB8 : Contract :=
  { expiration_date := some 5
    contract_type := some "call"
    last_price := some 1
    strike := some 200
    volume := some 10
    open_interest := some 1
    notional := some 1000 }

/-- A chain whose two contracts are both rejected by the OTM filter under
`settings8` (underlying at 100, strikes at 200). -/
def chain8 : Chain :=
  { underlying_price := some 100, contracts := [contractA8, contractB8] }

/-- The first debug candidate of `chain8` (largest notional, score 4). -/
noncomputable def candA8 : Candidate :=
  candidateFromContract contractA8 chain8 10000 0 5
    (calculateScore 10000 0 5 5) false "DEBUG" true

/-- The second debug candidate of `chain8` (smaller notional, score 13). -/
noncomputable def candB8 : Candidate :=
  candidateFromContract contractB8 chain8 1000 10 5
    (calculateScore 1000 10 5 5) false "DEBUG" true

/-! ### Helper lemmas -/

theorem not_of_if_singleton_nil {p : Prop} [Decidable p] {x : String}
    (h : (if p then [x] else []) = []) : ¬p := by
  intro hp
  rw [if_pos hp] at h
  cases h

theorem mem_if_singleton {p : Prop} [Decidable p] {x s : String} :
    x ∈ (if p then [s] else []) ↔ p ∧ x = s := by
  split <;> simp_all

theorem mem_optFloor {a : Type} [LT a] [DecidableRel ((· < ·) : a → a → Prop)]
    {o : Option a} {m : a} {name x : String} :
    x ∈ optFloor o m name ↔ (∃ v, o = some v ∧ v < m) ∧ x = name := by
  rcases o with _ | v <;> simp [optFloor, mem_if_singleton]

theorem if_singleton_cases {p : Prop} [Decidable p] {s : String} :
    (if p then [s] else ([] : List String)) = [] ∨
      (if p then [s] else ([] : List String)) = [s] := by
  split <;> simp

theorem optFloor_cases {a : Type} [LT a] [DecidableRel ((· < ·) : a → a → Prop)]
    (o : Option a) (m : a) (name : String) :
    optFloor o m name = [] ∨ optFloor o m name = [name] := by
  rcases o with _ | v
  · exact Or.inl rfl
  · simpa [optFloor] using @if_singleton_cases (v < m) _ name

theorem otmReason_cases (t : UnusualThresholds) (chain : Chain) (c : Contract) :
    otmReason t chain c = [] ∨ otmReason t chain c = ["otm_pct"] := by
  unfold otmReason
  by_cases h1 : 0 < t.max_otm_pct
  · rw [if_pos h1]
    cases hru : resolveUnderlyingPrice c chain with
    | none => exact Or.inl rfl
    | some u =>
      by_cases h2 : u ≠ 0 ∧ truthyQ c.strike = true
      · simp only [if_pos h2]
        exact if_singleton_cases
      · simp only [if_neg h2]
        left
        trivial
  · rw [if_neg h1]
    exact Or.inl rfl

theorem spreadReason_cases (t : UnusualThresholds) (c : Contract) :
    spreadReason t c = [] ∨ spreadReason t c = ["spread_bps"] := by
  unfold spreadReason
  by_cases h1 : 0 < t.spread_threshold_bps
  · rw [if_pos h1]
    cases hb : c.bid with
    | none => exact Or.inl rfl
    | some b =>
      cases ha : c.ask with
      | none => exact Or.inl rfl
      | some a =>
        cases hm : calculateMidPrice c with
        | none => exact Or.inl rfl
        | some m =>
          by_cases h2 : m ≠ 0 ∧ 0 < m
          · simp only [if_pos h2]
            exact if_singleton_cases
          · simp only [if_neg h2]
            left
            trivial
  · rw [if_neg h1]
    exact Or.inl rfl

theorem mem_otmReason {t : UnusualThresholds} {chain : Chain} {c : Contract}
    {x : String} (hx : x ∈ otmReason t chain c) : x = "otm_pct" := by
  rcases otmReason_cases t chain c with he | he <;> rw [he] at hx <;> simp_all

theorem mem_spreadReason {t : UnusualThresholds} {c : Contract} {x : String}
    (hx : x ∈ spreadReason t c) : x = "spread_bps" := by
  rcases spreadReason_cases t c with he | he <;> rw [he] at hx <;> simp_all

theorem sublist_single_of_cases {l : List String} {s : String}
    (h : l = [] ∨ l = [s]) : l.Sublist [s] := by
  rcases h with rfl | rfl
  · exact List.nil_sublist _
  · exact List.Sublist.refl _

theorem gates_of_reasons_nil {t : UnusualThresholds} {today : Int} {chain : Chain}
    {c : Contract} (h : rejectionReasons t today chain c = []) :
    (c.expiration_date.isNone || !truthyS c.contract_type) = false ∧
      t.min_dte_days ≤ c.expiration_date.getD 0 - today ∧
      c.expiration_date.getD 0 - today ≤ t.max_dte_days ∧
      t.min_volume ≤ c.volume.getD 0 ∧
      t.min_open_interest ≤ c.open_interest.getD 0 ∧
      t.min_notional ≤ calculateNotional c (orQ c.last_price (calculateMidPrice c)) c.volume ∧
      t.min_vol_oi_rat ≤ calcVolOiRat c.volume c.open_interest := by
  unfold rejectionReasons at h
  by_cases hcond : (c.expiration_date.isNone || !truthyS c.contract_type) = true
  · rw [if_pos hcond] at h
    exact (List.cons_ne_nil _ _ h).elim
  · rw [if_neg hcond] at h
    simp only [List.append_eq_nil, and_assoc] at h
    obtain ⟨h1, h2, h3, -, -, -, h7, h8, -⟩ := h
    have hdte := not_of_if_singleton_nil h1
    have hvol := not_of_if_singleton_nil h2
    have hoi := not_of_if_singleton_nil h3
    have hnot := not_of_if_singleton_nil h7
    have hrat := not_of_if_singleton_nil h8
    push_neg at hdte hvol hoi hnot hrat
    exact ⟨by simpa [Option.isSome_iff_ne_none] using hcond, hdte.1, hdte.2, hvol, hoi,
      hnot, hrat⟩

theorem evalContract_fields {t : UnusualThresholds} {today : Int} {chain : Chain}
    {c : Contract} {cand : Candidate}
    (hacc : evalContract t today chain c = Sum.inr cand) :
    rejectionReasons t today chain c = [] ∧
      cand.vol_oi_rat = calcVolOiRat c.volume c.open_interest ∧
      cand.score = calculateScore
        (calculateNotional c (orQ c.last_price (calculateMidPrice c)) c.volume)
        (calcVolOiRat c.volume c.open_interest)
        (c.expiration_date.getD 0 - today) t.max_dte_days := by
  by_cases h : rejectionReasons t today chain c = []
  · simp only [evalContract, h, if_pos, ite_true, Sum.inr.injEq] at hacc
    exact ⟨h, hacc ▸ rfl, hacc ▸ rfl⟩
  · simp [evalContract, h] at hacc

theorem evalContract_inr_of_nil {t : UnusualThresholds} {today : Int}
    {chain : Chain} {c : Contract} (h : rejectionReasons t today chain c = []) :
    ∃ cand, evalContract t today chain c = Sum.inr cand :=
  ⟨_, by
    simp only [evalContract, h]
    rfl⟩

theorem reasonsP_nil :
    rejectionReasons (getEffectiveThresholds settingsP) 0 chainP contractP = [] := by
  norm_num [rejectionReasons, getEffectiveThresholds, settingsP, chainP, contractP,
    calculateMidPrice, orQ, calcVolOiRat, calculateNotional, truthyS, truthyQ,
    otmReason, spreadReason, resolveUnderlyingPrice, optFloor]
  decide

theorem evalP_inr :
    evalContract (getEffectiveThresholds settingsP) 0 chainP contractP = Sum.inr candP := by
  have hN : calculateNotional contractP
      (orQ contractP.last_price (calculateMidPrice contractP)) contractP.volume = 1000000 := by
    norm_num [calculateNotional, contractP, orQ, calculateMidPrice]
  have hR : calcVolOiRat contractP.volume contractP.open_interest = 10 := by
    norm_num [calcVolOiRat, contractP]
  have hD : contractP.expiration_date.getD 0 - 0 = 5 := by norm_num [contractP]
  have hM : (getEffectiveThresholds settingsP).max_dte_days = 10 := rfl
  have hSW : detectSweep contractP 1000000 10
      ((getEffectiveThresholds settingsP).min_notional) = true := by
    norm_num [detectSweep, contractP, calculateMidPrice, getEffectiveThresholds, settingsP]
  simp only [evalContract, reasonsP_nil, ite_true, hN, hR, hD, hM, hSW, candP]

theorem findP : findUnusualActivity chainP settingsP 0 = [candP] := by
  have hc : passingCandidates chainP settingsP 0 = [candP] := by
    have hl : chainP.contracts = [contractP] := rfl
    simp only [passingCandidates, hl, List.filterMap_cons, List.filterMap_nil, evalP_inr]
  have hdm : settingsP.debug_mode = false := rfl
  simp [findUnusualActivity, hc, hdm]

/-- C7: for a contract with positive open interest, the emitted candidate's
volume/open-interest quotient is exactly `volume / open_interest` (an absent
volume counting as 0), and emission requires that quotient to be at least
the `min_volume_oi_ratio` threshold. -/
theorem c7_ratio_exact (t : UnusualThresholds) (today : Int) (chain : Chain)
    (c : Contract) (oi : Int) (cand : Candidate) (hoi : c.open_interest = some oi)
    (hpos : 0 < oi) (hacc : evalContract t today chain c = Sum.inr cand) :
    cand.vol_oi_rat = (c.volume.getD 0 : Rat) / (oi : Rat) ∧
      t.min_vol_oi_rat ≤ cand.vol_oi_rat := by
  obtain ⟨hnil, hrat, -⟩ := evalContract_fields hacc
  have hne : oi ≠ 0 := by omega
  have hval : calcVolOiRat c.volume c.open_interest = (c.volume.getD 0 : Rat) / (oi : Rat) := by
    rcases hv : c.volume with _ | v
    · simp [calcVolOiRat, hoi, hv]
    · by_cases hv0 : v = 0 <;> simp [calcVolOiRat, hoi, hv, hv0, hne]
  refine ⟨by rw [hrat, hval], ?_⟩
  rw [hrat]
  exact (gates_of_reasons_nil hnil).2.2.2.2.2.2

/-- C7, witness: the concrete passing contract (volume 10, open interest
1) is emitted with quotient 10/1 and clears the zero threshold. -/
theorem c7_ratio_exact_witness :
    contractP.open_interest = some 1 ∧ (0 : Int) < 1 ∧
      candP.vol_oi_rat = (contractP.volume.getD 0 : Rat) / ((1 : Int) : Rat) ∧
      (getEffectiveThresholds settingsP).min_vol_oi_rat ≤ candP.vol_oi_rat :=
  ⟨rfl, by decide,
    c7_ratio_exact (getEffectiveThresholds settingsP) 0 chainP contractP 1 candP
      rfl (by decide) evalP_inr⟩

/-- C10: each of the five optional floors (`trade_count`, `trade_size`,
`rvol`, `iv_percentile`, precomputed `unusual_score`) is skipped entirely
when the field is absent — the missing field never contributes its rejection
reason, whatever the thresholds — and a contract with an empty reason list
is emitted. -/
theorem c10_optional_floors (t : UnusualThresholds) (today : Int) (chain : Chain)
    (c : Contract) :
    (c.trade_count = none → "trade_count" ∉ rejectionReasons t today chain c) ∧
      (c.trade_size = none → "trade_size" ∉ rejectionReasons t today chain c) ∧
      (c.rvol = none → "rvol" ∉ rejectionReasons t today chain c) ∧
      (c.iv_percentile = none → "iv_pctile" ∉ rejectionReasons t today chain c) ∧
      (c.unusual_score = none → "unusual_score" ∉ rejectionReasons t today chain c) ∧
      (rejectionReasons t today chain c = [] →
        ∃ cand, evalContract t today chain c = Sum.inr cand) := by
  refine ⟨?_, ?_, ?_, ?_, ?_, fun h => evalContract_inr_of_nil h⟩ <;>
    · intro hnone hmem
      unfold rejectionReasons at hmem
      by_cases hcond : (c.expiration_date.isNone || !truthyS c.contract_type) = true
      · rw [if_pos hcond] at hmem
        simp at hmem
      · rw [if_neg hcond] at hmem
        simp [List.mem_append, mem_if_singleton, mem_optFloor, hnone] at hmem
        rcases hmem with h | h
        · exact absurd (mem_otmReason h) (by decide)
        · exact absurd (mem_spreadReason h) (by decide)

/-- C10, witness: a contract with all five optional fields absent is
emitted under the permissive thresholds, none of the five floor reasons
being recorded. -/
theorem c10_optional_floors_witness :
    contractP.trade_count = none ∧
      "trade_count" ∉ rejectionReasons (getEffectiveThresholds settingsP) 0 chainP contractP ∧
      (rejectionReasons (getEffectiveThresholds settingsP) 0 chainP contractP = [] →
        ∃ cand, evalContract (getEffectiveThresholds settingsP) 0 chainP contractP =
          Sum.inr cand) :=
  ⟨rfl,
    (c10_optional_floors (getEffectiveThresholds settingsP) 0 chainP contractP).1 rfl,
    (c10_optional_floors (getEffectiveThresholds settingsP) 0 chainP contractP).2.2.2.2.2⟩


/-! ### Score evaluation and bounds -/

theorem logb_ten_pow (k : Nat) :
    Real.logb 10 ((((10 : Rat) ^ k : Rat) : Real)) = k := by
  have h : (((10 : Rat) ^ k : Rat) : Real) = (10 : Real) ^ k := by push_cast; ring
  rw [h, Real.logb_pow, Real.logb_self_eq_one (by norm_num), mul_one]

theorem calculateScore_pow_eval (r : Rat) (k : Nat) (d m : Int) :
    calculateScore ((10 : Rat) ^ k) r d m =
      ((min r 10 : Rat) : Real) + k + ((dteBonus d m : Rat) : Real) := by
  unfold calculateScore
  have hmax : max ((10 : Rat) ^ k) 1 = (10 : Rat) ^ k :=
    max_eq_left (one_le_pow₀ (by norm_num))
  rw [hmax, logb_ten_pow]

theorem dteBonus_eval_5_10 : dteBonus 5 10 = 1 / 2 := by
  unfold dteBonus
  rw [if_pos (by norm_num : (0 : Int) < 10)]
  rw [show (((10 : Int) : Rat) - ((5 : Int) : Rat)) / ((10 : Int) : Rat) = 1 / 2 by
    push_cast
    norm_num]
  exact max_eq_left (by norm_num)

theorem dteBonus_eval_5_5 : dteBonus 5 5 = 0 := by
  unfold dteBonus
  rw [if_pos (by norm_num : (0 : Int) < 5)]
  rw [show (((5 : Int) : Rat) - ((5 : Int) : Rat)) / ((5 : Int) : Rat) = 0 by
    push_cast
    norm_num]
  exact max_self 0

theorem candP_score : candP.score = 33 / 2 := by
  show calculateScore 1000000 10 5 10 = 33 / 2
  rw [show (1000000 : Rat) = (10 : Rat) ^ (6 : Nat) by norm_num]
  rw [calculateScore_pow_eval, dteBonus_eval_5_10, min_self]
  push_cast
  norm_num

theorem cand1_score : cand1.score = 211 / 2 := by
  show calculateScore ((10 : Rat) ^ (95 : Nat)) 10 5 10 = 211 / 2
  rw [calculateScore_pow_eval, dteBonus_eval_5_10, min_self]
  push_cast
  norm_num

theorem candA8_score : candA8.score = 4 := by
  show calculateScore 10000 0 5 5 = 4
  rw [show (10000 : Rat) = (10 : Rat) ^ (4 : Nat) by norm_num]
  rw [calculateScore_pow_eval, dteBonus_eval_5_5,
    min_eq_left (by norm_num : (0 : Rat) ≤ 10)]
  push_cast
  norm_num

theorem candB8_score : candB8.score = 13 := by
  show calculateScore 1000 10 5 5 = 13
  rw [show (1000 : Rat) = (10 : Rat) ^ (3 : Nat) by norm_num]
  rw [calculateScore_pow_eval, dteBonus_eval_5_5, min_self]
  push_cast
  norm_num

theorem calcVolOiRat_nonneg {v oi : Option Int} (hv : 0 ≤ v.getD 0)
    (ho : 0 ≤ oi.getD 0) : 0 ≤ calcVolOiRat v oi := by
  rcases v with _ | v
  · simp [calcVolOiRat]
  · simp only [Option.getD_some] at hv
    by_cases hv0 : v = 0
    · simp [calcVolOiRat, hv0]
    · rcases oi with _ | o
      · simp [calcVolOiRat, hv0]
      · simp only [Option.getD_some] at ho
        by_cases ho0 : o = 0
        · simp [calcVolOiRat, hv0, ho0]
        · simp only [calcVolOiRat, hv0, ho0, if_false]
          exact div_nonneg (by exact_mod_cast hv) (by exact_mod_cast ho)

theorem dteBonus_nonneg (d m : Int) : 0 ≤ dteBonus d m := by
  unfold dteBonus
  split
  · exact le_max_right _ _
  · exact le_refl 0

theorem calculateScore_nonneg {notional rat : Rat} (hr : 0 ≤ rat)
    (dteDays maxDte : Int) : 0 ≤ calculateScore notional rat dteDays maxDte := by
  unfold calculateScore
  have h1 : (0 : Real) ≤ ((min rat 10 : Rat) : Real) := by
    have : (0 : Rat) ≤ min rat 10 := le_min hr (by norm_num)
    exact_mod_cast this
  have h2 : (0 : Real) ≤ Real.logb 10 ((max notional 1 : Rat) : Real) := by
    apply Real.logb_nonneg (by norm_num)
    have : (1 : Rat) ≤ max notional 1 := le_max_right _ _
    exact_mod_cast this
  have h3 : (0 : Real) ≤ ((dteBonus dteDays maxDte : Rat) : Real) := by
    exact_mod_cast dteBonus_nonneg dteDays maxDte
  linarith

/-! ### Shape of emitted candidates -/

theorem debugScored_shape {today : Int} {c : Contract}
    {item : Rat × Contract × Rat × Real × Int}
    (h : debugScored today c = some item) :
    item.2.1 = c ∧
      item.2.2.2.1 = calculateScore item.1 (calcVolOiRat c.volume c.open_interest)
        (max (c.expiration_date.getD 0 - today) 0)
        (max (c.expiration_date.getD 0 - today) 1) := by
  unfold debugScored at h
  by_cases h1 : (c.expiration_date.isNone || !truthyS c.contract_type) = true
  · rw [if_pos h1] at h
    cases h
  · rw [if_neg h1] at h
    rcases ho : orQ c.last_price (calculateMidPrice c) with _ | p
    · simp only [ho] at h
      cases h
    · simp only [ho, Option.some.injEq] at h
      rw [← h]
      exact ⟨rfl, rfl⟩

theorem score_shape_of_mem {chain : Chain} {s : Settings} {today : Int}
    {cand : Candidate} (h : cand ∈ findUnusualActivity chain s today) :
    ∃ c ∈ chain.contracts, ∃ n d m,
      cand.score = calculateScore n (calcVolOiRat c.volume c.open_interest) d m := by
  unfold findUnusualActivity at h
  by_cases hdm : (s.debug_mode && (passingCandidates chain s today).isEmpty) = true
  · rw [if_pos hdm] at h
    unfold buildDebugCandidates at h
    simp only [List.mem_map] at h
    obtain ⟨item, hitem, rfl⟩ := h
    have hranked := List.mem_of_mem_take hitem
    rw [List.mem_mergeSort] at hranked
    rw [List.mem_filterMap] at hranked
    obtain ⟨c, hc, hds⟩ := hranked
    obtain ⟨hcc, hscore⟩ := debugScored_shape hds
    refine ⟨c, hc, item.1, max (c.expiration_date.getD 0 - today) 0,
      max (c.expiration_date.getD 0 - today) 1, ?_⟩
    have hproj : (candidateFromContract item.2.1 chain item.1 item.2.2.1 item.2.2.2.2
        item.2.2.2.1 false "DEBUG" true).score = item.2.2.2.1 := rfl
    rw [hproj, hscore]
  · rw [if_neg hdm] at h
    rw [List.mem_mergeSort] at h
    unfold passingCandidates at h
    rw [List.mem_filterMap] at h
    obtain ⟨c, hc, hev⟩ := h
    rcases hev2 : evalContract (getEffectiveThresholds s) today chain c with rs | cand2
    · rw [hev2] at hev
      cases hev
    · rw [hev2] at hev
      simp only [Option.some.injEq] at hev
      obtain ⟨-, -, hscore⟩ := evalContract_fields hev2
      subst hev
      exact ⟨c, hc, _, _, _, hscore⟩

/-! ### Claims -/

/-- C3, counterexample: with a configured `min_dte_days` of `-1`, debug mode
*raises* the lower DTE bound to 0, i.e. tightens it, contradicting the claim
that debug thresholds are never more restrictive for every configuration. -/
theorem c3_counterexample :
    (getEffectiveThresholds { settings3 with debug_mode := false }).min_dte_days <
      (getEffectiveThresholds { settings3 with debug_mode := true }).min_dte_days := by
  decide

/-- C3, amended: for every configuration whose `min_dte_days` is
non-negative, each debug-mode threshold is no more restrictive than its
production value — every lower bound is `≤` and every upper bound `≥` the
non-debug value.  (Debug mode pins `min_dte_days` to 0, so a negative
configured value is the one way it can tighten.) -/
theorem c3_debug_relaxes (s : Settings) (h : 0 ≤ s.unusual_min_dte_days) :
    (getEffectiveThresholds { s with debug_mode := true }).min_dte_days ≤
        (getEffectiveThresholds { s with debug_mode := false }).min_dte_days ∧
      (getEffectiveThresholds { s with debug_mode := false }).max_dte_days ≤
        (getEffectiveThresholds { s with debug_mode := true }).max_dte_days ∧
      (getEffectiveThresholds { s with debug_mode := true }).min_notional ≤
        (getEffectiveThresholds { s with debug_mode := false }).min_notional ∧
      (getEffectiveThresholds { s with debug_mode := true }).min_volume ≤
        (getEffectiveThresholds { s with debug_mode := false }).min_volume ∧
      (getEffectiveThresholds { s with debug_mode := true }).min_open_interest ≤
        (getEffectiveThresholds { s with debug_mode := false }).min_open_interest ∧
      (getEffectiveThresholds { s with debug_mode := true }).min_vol_oi_rat ≤
        (getEffectiveThresholds { s with debug_mode := false }).min_vol_oi_rat ∧
      (getEffectiveThresholds { s with debug_mode := true }).min_trade_count ≤
        (getEffectiveThresholds { s with debug_mode := false }).min_trade_count ∧
      (getEffectiveThresholds { s with debug_mode := true }).min_trade_size ≤
        (getEffectiveThresholds { s with debug_mode := false }).min_trade_size ∧
      (getEffectiveThresholds { s with debug_mode := true }).min_rvol ≤
        (getEffectiveThresholds { s with debug_mode := false }).min_rvol ∧
      (getEffectiveThresholds { s with debug_mode := true }).min_iv_pctile ≤
        (getEffectiveThresholds { s with debug_mode := false }).min_iv_pctile ∧
      (getEffectiveThresholds { s with debug_mode := false }).max_otm_pct ≤
        (getEffectiveThresholds { s with debug_mode := true }).max_otm_pct ∧
      (getEffectiveThresholds { s with debug_mode := false }).spread_threshold_bps ≤
        (getEffectiveThresholds { s with debug_mode := true }).spread_threshold_bps ∧
      (getEffectiveThresholds { s with debug_mode := true }).min_unusual_score ≤
        (getEffectiveThresholds { s with debug_mode := false }).min_unusual_score := by
  simp only [getEffectiveThresholds, if_pos, if_neg, Bool.false_eq_true,
    not_false_iff, if_true, if_false]
  exact ⟨h, le_max_left _ _, min_le_left _ _, min_le_left _ _, min_le_left _ _,
    min_le_left _ _, min_le_left _ _, min_le_left _ _, min_le_left _ _,
    min_le_left _ _, le_max_left _ _, le_max_left _ _, min_le_left _ _⟩

/-- C3, witness for the amended theorem at the default configuration. -/
theorem c3_debug_relaxes_witness :
    0 ≤ ({} : Settings).unusual_min_dte_days ∧
      (getEffectiveThresholds { ({} : Settings) with debug_mode := true }).min_dte_days ≤
        (getEffectiveThresholds { ({} : Settings) with debug_mode := false }).min_dte_days :=
  ⟨by decide, (c3_debug_relaxes {} (by decide)).1⟩

/-- C4, counterexample: with last price exactly 0 and quotes 1/3 (mid 2),
the specification's sweep rule (resolved last price ≥ mid, where a zero last
price resolves to the mid) classifies the contract as a sweep, but the code
compares the raw last price (0 ≥ 2 fails) and does not. -/
theorem c4_counterexample :
    detectSweepSpec contract4 1000 10 100 = true ∧
      detectSweep contract4 1000 10 100 = false := by
  constructor
  · norm_num [detectSweepSpec, contract4, calculateMidPrice, orQ]
  · norm_num [detectSweep, contract4, calculateMidPrice]
    decide

/-- C4, amended: sweep classification is exactly: the explicit upstream flag,
or (a) volume ≥ 5 × open interest when open interest is positive and
otherwise quotient ≥ 3, and (b) notional ≥ 2 × the minimum-notional
threshold, and (c) the contract's *raw* last price ≥ mid price whenever both
are available (trivially satisfied when either is missing — in particular a
zero last price is compared as-is, not resolved to the mid). -/
theorem c4_sweep_characterization (c : Contract) (notional rat minNotional : Rat) :
    detectSweep c notional rat minNotional = true ↔
      (c.sweep = some true ∨
        ((if 0 < c.open_interest.getD 0 then 5 * c.open_interest.getD 0 ≤ c.volume.getD 0
            else (3 : Rat) ≤ rat) ∧
          2 * minNotional ≤ notional ∧
          ∀ m lp, calculateMidPrice c = some m → c.last_price = some lp → m ≤ lp)) := by
  unfold detectSweep
  by_cases hs : c.sweep = some true
  · simp [hs]
  · rcases hm : calculateMidPrice c with _ | m <;>
      rcases hl : c.last_price with _ | lp <;>
        by_cases hoi : 0 < c.open_interest.getD 0 <;>
          simp [hs, hm, hl, hoi, and_assoc]

theorem reasons1_nil :
    rejectionReasons (getEffectiveThresholds settingsP) 0 chain1 contract1 = [] := by
  norm_num [rejectionReasons, getEffectiveThresholds, settingsP, chain1, contract1,
    contractP, calculateMidPrice, orQ, calcVolOiRat, calculateNotional, truthyS,
    truthyQ, otmReason, spreadReason, resolveUnderlyingPrice, optFloor]
  decide

theorem eval1_inr :
    evalContract (getEffectiveThresholds settingsP) 0 chain1 contract1 = Sum.inr cand1 := by
  have hN : calculateNotional contract1
      (orQ contract1.last_price (calculateMidPrice contract1)) contract1.volume =
        (10 : Rat) ^ (95 : Nat) := by
    norm_num [calculateNotional, contract1, contractP, orQ, calculateMidPrice]
  have hR : calcVolOiRat contract1.volume contract1.open_interest = 10 := by
    norm_num [calcVolOiRat, contract1, contractP]
  have hD : contract1.expiration_date.getD 0 - 0 = 5 := by
    norm_num [contract1, contractP]
  have hM : (getEffectiveThresholds settingsP).max_dte_days = 10 := rfl
  have hSW : detectSweep contract1 ((10 : Rat) ^ (95 : Nat)) 10
      ((getEffectiveThresholds settingsP).min_notional) = true := by
    norm_num [detectSweep, contract1, contractP, calculateMidPrice,
      getEffectiveThresholds, settingsP]
  simp only [evalContract, reasons1_nil, ite_true, hN, hR, hD, hM, hSW, cand1]

theorem find1 : findUnusualActivity chain1 settingsP 0 = [cand1] := by
  have hc : passingCandidates chain1 settingsP 0 = [cand1] := by
    have hl : chain1.contracts = [contract1] := rfl
    simp only [passingCandidates, hl, List.filterMap_cons, List.filterMap_nil, eval1_inr]
  have hdm : settingsP.debug_mode = false := rfl
  simp [findUnusualActivity, hc, hdm]

theorem reasons2_nil :
    rejectionReasons (getEffectiveThresholds settings2) 0 chainP contractP = [] := by
  norm_num [rejectionReasons, getEffectiveThresholds, settings2, settingsP, chainP,
    contractP, calculateMidPrice, orQ, calcVolOiRat, calculateNotional, truthyS,
    truthyQ, otmReason, spreadReason, resolveUnderlyingPrice, optFloor]
  decide

theorem eval2_inr :
    evalContract (getEffectiveThresholds settings2) 0 chainP contractP = Sum.inr candP := by
  have hN : calculateNotional contractP
      (orQ contractP.last_price (calculateMidPrice contractP)) contractP.volume = 1000000 := by
    norm_num [calculateNotional, contractP, orQ, calculateMidPrice]
  have hR : calcVolOiRat contractP.volume contractP.open_interest = 10 := by
    norm_num [calcVolOiRat, contractP]
  have hD : contractP.expiration_date.getD 0 - 0 = 5 := by norm_num [contractP]
  have hM : (getEffectiveThresholds settings2).max_dte_days = 10 := rfl
  have hSW : detectSweep contractP 1000000 10
      ((getEffectiveThresholds settings2).min_notional) = true := by
    norm_num [detectSweep, contractP, calculateMidPrice, getEffectiveThresholds,
      settings2, settingsP]
  simp only [evalContract, reasons2_nil, ite_true, hN, hR, hD, hM, hSW, candP]

theorem find2 : findUnusualActivity chainP settings2 0 = [candP] := by
  have hc : passingCandidates chainP settings2 0 = [candP] := by
    have hl : chainP.contracts = [contractP] := rfl
    simp only [passingCandidates, hl, List.filterMap_cons, List.filterMap_nil, eval2_inr]
  have hdm : settings2.debug_mode = false := rfl
  simp [findUnusualActivity, hc, hdm]

/-- C1, counterexample: the scorer neither rounds nor clamps — with a
precomputed notional of `10^95` (a representable float), the emitted
candidate's composite score is `211/2 = 105.5`, outside the documented
0–100 range. -/
theorem c1_counterexample :
    ∃ cand ∈ findUnusualActivity chain1 settingsP 0, 100 < cand.score := by
  refine ⟨cand1, ?_, ?_⟩
  · rw [find1]
    exact List.mem_singleton.mpr rfl
  · rw [cand1_score]
    norm_num

/-- C1, amended: the composite score is the unrounded, unclamped sum
`min(ratio, 10) + log10(max(notional, 1)) + dte_bonus`; it is non-negative
for every emitted candidate of a chain whose volumes and open interests are
non-negative, but it is not bounded above by 100. -/
theorem c1_score_nonneg (chain : Chain) (s : Settings) (today : Int)
    (cand : Candidate)
    (hfields : ∀ c ∈ chain.contracts, 0 ≤ c.volume.getD 0 ∧ 0 ≤ c.open_interest.getD 0)
    (hmem : cand ∈ findUnusualActivity chain s today) : 0 ≤ cand.score := by
  obtain ⟨c, hc, n, d, m, hscore⟩ := score_shape_of_mem hmem
  rw [hscore]
  exact calculateScore_nonneg
    (calcVolOiRat_nonneg (hfields c hc).1 (hfields c hc).2) _ _

/-- C1, witness for the amended theorem on the concrete passing chain. -/
theorem c1_score_nonneg_witness :
    (∀ c ∈ chainP.contracts, 0 ≤ c.volume.getD 0 ∧ 0 ≤ c.open_interest.getD 0) ∧
      candP ∈ findUnusualActivity chainP settingsP 0 ∧ 0 ≤ candP.score := by
  have h1 : ∀ c ∈ chainP.contracts, 0 ≤ c.volume.getD 0 ∧ 0 ≤ c.open_interest.getD 0 := by
    decide
  have h2 : candP ∈ findUnusualActivity chainP settingsP 0 := by
    rw [findP]
    exact List.mem_singleton.mpr rfl
  exact ⟨h1, h2, c1_score_nonneg chainP settingsP 0 candP h1 h2⟩

/-- C2, counterexample: a contract that clears every predicate while its
*composite* score (33/2) is far below the configured min-score floor (1000)
is emitted anyway — the floor is only ever compared against the precomputed
`unusual_score` field (absent here), never against the computed composite
score, so the claim's final rejection predicate does not exist in the code. -/
theorem c2_counterexample :
    candP.score < ((getEffectiveThresholds settings2).min_unusual_score : Real) ∧
      findUnusualActivity chainP settings2 0 = [candP] := by
  constructor
  · rw [candP_score, show (getEffectiveThresholds settings2).min_unusual_score = 1000
      from rfl]
    norm_num
  · exact find2

/-- C2, amended: the rejection predicates are evaluated and recorded in the
fixed order missing-expiry-or-type → dte → volume → open-interest →
trade-count → trade-size → price → notional → ratio → rvol → iv-percentile →
precomputed-unusual-score → otm-pct → spread; a contract missing its
expiration date records exactly `"missing_expiry_or_type"` (not
`"missing_expiry"`) and never reaches scoring or sweep classification; a
rejected contract is never emitted.  The min-score floor applies to the
precomputed `unusual_score` field (before the OTM and spread checks), not to
the computed composite score. -/
theorem c2_rejection_order (t : UnusualThresholds) (today : Int) (chain : Chain)
    (c : Contract) :
    (c.expiration_date = none →
      rejectionReasons t today chain c = ["missing_expiry_or_type"] ∧
        evalContract t today chain c = Sum.inl ["missing_expiry_or_type"]) ∧
      (rejectionReasons t today chain c).Sublist
        ["missing_expiry_or_type", "dte", "volume", "open_interest", "trade_count",
         "trade_size", "price", "notional", "volume_oi_ratio", "rvol", "iv_pctile",
         "unusual_score", "otm_pct", "spread_bps"] ∧
      (rejectionReasons t today chain c ≠ [] →
        ∀ cand, evalContract t today chain c ≠ Sum.inr cand) := by
  refine ⟨?_, ?_, ?_⟩
  · intro hexp
    have hre : rejectionReasons t today chain c = ["missing_expiry_or_type"] := by
      unfold rejectionReasons
      rw [if_pos (by simp [hexp])]
    refine ⟨hre, ?_⟩
    simp [evalContract, hre]
  · unfold rejectionReasons
    by_cases hcond : (c.expiration_date.isNone || !truthyS c.contract_type) = true
    · rw [if_pos hcond]
      exact (List.nil_sublist _).cons₂ _
    · rw [if_neg hcond]
      apply List.Sublist.cons
      show List.Sublist _ (["dte"] ++ ["volume"] ++ ["open_interest"] ++
        ["trade_count"] ++ ["trade_size"] ++ ["price"] ++ ["notional"] ++
        ["volume_oi_ratio"] ++ ["rvol"] ++ ["iv_pctile"] ++ ["unusual_score"] ++
        ["otm_pct"] ++ ["spread_bps"])
      refine List.Sublist.append ?_ (sublist_single_of_cases (spreadReason_cases t c))
      refine List.Sublist.append ?_ (sublist_single_of_cases (otmReason_cases t chain c))
      refine List.Sublist.append ?_ (sublist_single_of_cases
        (optFloor_cases c.unusual_score t.min_unusual_score "unusual_score"))
      refine List.Sublist.append ?_ (sublist_single_of_cases
        (optFloor_cases c.iv_percentile t.min_iv_pctile "iv_pctile"))
      refine List.Sublist.append ?_ (sublist_single_of_cases
        (optFloor_cases c.rvol t.min_rvol "rvol"))
      refine List.Sublist.append ?_ (sublist_single_of_cases if_singleton_cases)
      refine List.Sublist.append ?_ (sublist_single_of_cases if_singleton_cases)
      refine List.Sublist.append ?_ (sublist_single_of_cases if_singleton_cases)
      refine List.Sublist.append ?_ (sublist_single_of_cases
        (optFloor_cases c.trade_size t.min_trade_size "trade_size"))
      refine List.Sublist.append ?_ (sublist_single_of_cases
        (optFloor_cases c.trade_count t.min_trade_count "trade_count"))
      refine List.Sublist.append ?_ (sublist_single_of_cases if_singleton_cases)
      exact List.Sublist.append (sublist_single_of_cases if_singleton_cases)
        (sublist_single_of_cases if_singleton_cases)
  · intro hne cand hacc
    obtain ⟨hnil, -⟩ := evalContract_fields hacc
    exact hne hnil

/-- C2, witness: a contract with no expiration date is rejected with exactly
the reason `"missing_expiry_or_type"`, never reaches scoring, and is not
emitted. -/
theorem c2_rejection_order_witness :
    rejectionReasons (getEffectiveThresholds settingsP) 0 chainP {} =
        ["missing_expiry_or_type"] ∧
      evalContract (getEffectiveThresholds settingsP) 0 chainP {} =
        Sum.inl ["missing_expiry_or_type"] ∧
      ∀ cand, evalContract (getEffectiveThresholds settingsP) 0 chainP {} ≠
        Sum.inr cand := by
  have h := c2_rejection_order (getEffectiveThresholds settingsP) 0 chainP {}
  have ha := h.1 rfl
  refine ⟨ha.1, ha.2, h.2.2 ?_⟩
  rw [ha.1]
  exact List.cons_ne_nil _ _

theorem perm_pair_cases {a : Type} {l : List a} {x y : a} (h : l.Perm [x, y]) :
    l = [x, y] ∨ l = [y, x] := by
  have hlen := h.length_eq
  rcases l with _ | ⟨p, _ | ⟨q, _ | ⟨r, l⟩⟩⟩ <;> simp at hlen
  have hp : p ∈ [x, y] := h.subset (List.mem_cons_self p [q])
  simp only [List.mem_cons, List.not_mem_nil, or_false] at hp
  rcases hp with hpx | hpy
  · left
    have h' : ([p, q] : List a).Perm [p, y] := by
      rw [hpx] at h ⊢
      exact h
    have h3 : q = y := by simpa using List.perm_singleton.mp ((List.perm_cons p).mp h')
    rw [hpx, h3]
  · right
    have hswap : ([x, y] : List a).Perm [y, x] := List.Perm.swap y x []
    have h' : ([p, q] : List a).Perm [p, x] := by
      rw [hpy] at h ⊢
      exact h.trans hswap
    have h3 : q = x := by simpa using List.perm_singleton.mp ((List.perm_cons p).mp h')
    rw [hpy, h3]

theorem reasons8A :
    rejectionReasons (getEffectiveThresholds settings8) 0 chain8 contractA8 =
      ["otm_pct"] := by
  norm_num [rejectionReasons, getEffectiveThresholds, settings8, settingsP, chain8,
    contractA8, calculateMidPrice, orQ, calcVolOiRat, calculateNotional, truthyS,
    truthyQ, otmReason, spreadReason, resolveUnderlyingPrice, optFloor, min_def,
    max_def]
  decide

theorem reasons8B :
    rejectionReasons (getEffectiveThresholds settings8) 0 chain8 contractB8 =
      ["otm_pct"] := by
  norm_num [rejectionReasons, getEffectiveThresholds, settings8, settingsP, chain8,
    contractB8, calculateMidPrice, orQ, calcVolOiRat, calculateNotional, truthyS,
    truthyQ, otmReason, spreadReason, resolveUnderlyingPrice, optFloor, min_def,
    max_def]
  decide

theorem passing8_nil : passingCandidates chain8 settings8 0 = [] := by
  have hA : evalContract (getEffectiveThresholds settings8) 0 chain8 contractA8 =
      Sum.inl ["otm_pct"] := by
    simp [evalContract, reasons8A]
  have hB : evalContract (getEffectiveThresholds settings8) 0 chain8 contractB8 =
      Sum.inl ["otm_pct"] := by
    simp [evalContract, reasons8B]
  have hl : chain8.contracts = [contractA8, contractB8] := rfl
  simp only [passingCandidates, hl, List.filterMap_cons, List.filterMap_nil, hA, hB]

theorem debugScored8A :
    debugScored 0 contractA8 =
      some (10000, contractA8, 0, calculateScore 10000 0 5 5, 5) := by
  have hN : calculateNotional contractA8 (some 1) contractA8.volume = 10000 := by
    norm_num [calculateNotional, contractA8]
  have hR : calcVolOiRat contractA8.volume contractA8.open_interest = 0 := by
    norm_num [calcVolOiRat, contractA8]
  have hor : orQ contractA8.last_price (calculateMidPrice contractA8) = some 1 := by
    norm_num [orQ, calculateMidPrice, contractA8]
  have hD : contractA8.expiration_date.getD 0 - 0 = 5 := by norm_num [contractA8]
  have h5a : max (5 : Int) 0 = 5 := by decide
  have h5b : max (5 : Int) 1 = 5 := by decide
  have hcnd : (contractA8.expiration_date.isNone || !truthyS contractA8.contract_type)
      = false := by decide
  simp only [debugScored, hcnd, Bool.false_eq_true, if_false, hor, hD, h5a, h5b,
    hN, hR]

theorem debugScored8B :
    debugScored 0 contractB8 =
      some (1000, contractB8, 10, calculateScore 1000 10 5 5, 5) := by
  have hN : calculateNotional contractB8 (some 1) contractB8.volume = 1000 := by
    norm_num [calculateNotional, contractB8]
  have hR : calcVolOiRat contractB8.volume contractB8.open_interest = 10 := by
    norm_num [calcVolOiRat, contractB8]
  have hor : orQ contractB8.last_price (calculateMidPrice contractB8) = some 1 := by
    norm_num [orQ, calculateMidPrice, contractB8]
  have hD : contractB8.expiration_date.getD 0 - 0 = 5 := by norm_num [contractB8]
  have h5a : max (5 : Int) 0 = 5 := by decide
  have h5b : max (5 : Int) 1 = 5 := by decide
  have hcnd : (contractB8.expiration_date.isNone || !truthyS contractB8.contract_type)
      = false := by decide
  simp only [debugScored, hcnd, Bool.false_eq_true, if_false, hor, hD, h5a, h5b,
    hN, hR]

theorem find8 : findUnusualActivity chain8 settings8 0 = [candA8, candB8] := by
  have hdm : (settings8.debug_mode && (passingCandidates chain8 settings8 0).isEmpty)
      = true := by
    rw [passing8_nil]
    rfl
  have hl : chain8.contracts = [contractA8, contractB8] := rfl
  unfold findUnusualActivity
  rw [if_pos hdm]
  unfold buildDebugCandidates
  rw [hl]
  simp only [List.filterMap_cons, List.filterMap_nil, debugScored8A, debugScored8B]
  norm_num [List.mergeSort, List.merge, List.splitInTwo, candA8, candB8]

/-- C8, counterexample: in debug mode with every contract rejected, the
pipeline returns the debug fallback, which is ranked by notional (not by
score): the returned list has scores `[4, 13]`, i.e. ascending, violating
the claimed score-descending order of the returned candidate list. -/
theorem c8_counterexample :
    ∃ c1 c2, findUnusualActivity chain8 settings8 0 = [c1, c2] ∧
      c1.score < c2.score := by
  refine ⟨candA8, candB8, find8, ?_⟩
  rw [candA8_score, candB8_score]
  norm_num

/-- C8, amended: whenever the debug fallback is not taken (debug mode off,
or at least one contract passed), the returned list is the stable
merge-sort of the accepted candidates by descending score: it is sorted by
score descending, it is a permutation of the accepted candidates, and any
two candidates with equal scores keep their original relative order. -/
theorem c8_sorted_stable (chain : Chain) (s : Settings) (today : Int)
    (h : s.debug_mode = false ∨ passingCandidates chain s today ≠ []) :
    (findUnusualActivity chain s today).Pairwise (fun a b => b.score ≤ a.score) ∧
      (findUnusualActivity chain s today).Perm (passingCandidates chain s today) ∧
      (∀ a b, [a, b].Sublist (passingCandidates chain s today) → a.score = b.score →
        [a, b].Sublist (findUnusualActivity chain s today)) := by
  have htrans : ∀ a b c : Candidate, scoreDesc a b → scoreDesc b c → scoreDesc a c := by
    intro a b c hab hbc
    simp only [scoreDesc, decide_eq_true_eq] at *
    exact le_trans hbc hab
  have htotal : ∀ a b : Candidate, scoreDesc a b || scoreDesc b a := by
    intro a b
    simp only [scoreDesc, Bool.or_eq_true, decide_eq_true_eq]
    exact le_total _ _
  have hcond : (s.debug_mode && (passingCandidates chain s today).isEmpty) = false := by
    rcases h with h | h
    · simp [h]
    · simp [h, List.isEmpty_iff]
  have hfu : findUnusualActivity chain s today =
      (passingCandidates chain s today).mergeSort scoreDesc := by
    simp [findUnusualActivity, hcond]
  refine ⟨?_, ?_, ?_⟩
  · rw [hfu]
    refine (List.sorted_mergeSort htrans htotal _).imp ?_
    intro a b hab
    simpa [scoreDesc, decide_eq_true_eq] using hab
  · rw [hfu]
    exact List.mergeSort_perm _ _
  · intro a b hsub hscore
    rw [hfu]
    refine List.pair_sublist_mergeSort htrans htotal ?_ hsub
    simp [scoreDesc, hscore]

/-- C8, witness for the amended theorem on the concrete non-debug chain. -/
theorem c8_sorted_stable_witness :
    (settingsP.debug_mode = false ∨ passingCandidates chainP settingsP 0 ≠ []) ∧
      (findUnusualActivity chainP settingsP 0).Pairwise
        (fun a b => b.score ≤ a.score) :=
  ⟨Or.inl rfl, (c8_sorted_stable chainP settingsP 0 (Or.inl rfl)).1⟩

/-! ### Totality of the division-checked pipeline -/

theorem calculateMidPriceChk_eq (c : Contract) :
    calculateMidPriceChk c = some (calculateMidPrice c) := by
  unfold calculateMidPriceChk calculateMidPrice divChk
  rcases c.bid with _ | b <;> rcases c.ask with _ | a <;> norm_num

theorem calcVolOiRatChk_eq (v oi : Option Int) :
    calcVolOiRatChk v oi = some (calcVolOiRat v oi) := by
  unfold calcVolOiRatChk calcVolOiRat divChk
  rcases v with _ | v
  · rfl
  · by_cases hv : v = 0
    · simp [hv]
    · rcases oi with _ | o
      · simp [hv]
      · by_cases ho : o = 0
        · simp [hv, ho]
        · have hoq : ((o : Rat)) ≠ 0 := by exact_mod_cast ho
          simp [hv, ho, hoq]

theorem dteBonusChk_eq (d m : Int) : dteBonusChk d m = some (dteBonus d m) := by
  unfold dteBonusChk dteBonus divChk
  by_cases hm : 0 < m
  · have hmq : ((m : Rat)) ≠ 0 := by
      exact_mod_cast (by omega : m ≠ 0)
    simp [hm, hmq]
  · simp [hm]

theorem calculateScoreChk_eq (n r : Rat) (d m : Int) :
    calculateScoreChk n r d m = some (calculateScore n r d m) := by
  unfold calculateScoreChk calculateScore log10Chk
  have hpos : ¬(max n 1 ≤ 0) := by
    push_neg
    exact lt_of_lt_of_le zero_lt_one (le_max_right n 1)
  rw [if_neg hpos, dteBonusChk_eq]

theorem otmReasonChk_eq (t : UnusualThresholds) (chain : Chain) (c : Contract) :
    otmReasonChk t chain c = some (otmReason t chain c) := by
  unfold otmReasonChk otmReason divChk
  by_cases h1 : 0 < t.max_otm_pct
  · rw [if_pos h1, if_pos h1]
    rcases resolveUnderlyingPrice c chain with _ | u
    · rfl
    · by_cases h2 : u ≠ 0 ∧ truthyQ c.strike = true
      · simp only [if_pos h2, if_neg h2.1, Option.map_some']
      · simp only [if_neg h2]
  · rw [if_neg h1, if_neg h1]

theorem spreadReasonChk_eq (t : UnusualThresholds) (c : Contract) :
    spreadReasonChk t c (calculateMidPrice c) = some (spreadReason t c) := by
  unfold spreadReasonChk spreadReason divChk
  by_cases h1 : 0 < t.spread_threshold_bps
  · rw [if_pos h1, if_pos h1]
    rcases c.bid with _ | b <;> rcases c.ask with _ | a
    · rfl
    · rfl
    · rfl
    · rcases calculateMidPrice c with _ | m
      · rfl
      · by_cases h2 : m ≠ 0 ∧ 0 < m
        · simp only [if_pos h2, if_neg h2.1, Option.map_some']
        · simp only [if_neg h2]
  · rw [if_neg h1, if_neg h1]

theorem rejectionReasonsChk_eq (t : UnusualThresholds) (today : Int) (chain : Chain)
    (c : Contract) :
    rejectionReasonsChk t today chain c = some (rejectionReasons t today chain c) := by
  unfold rejectionReasonsChk rejectionReasons
  by_cases hcond : (c.expiration_date.isNone || !truthyS c.contract_type) = true
  · rw [if_pos hcond, if_pos hcond]
  · rw [if_neg hcond, if_neg hcond]
    simp only [calculateMidPriceChk_eq, calcVolOiRatChk_eq, otmReasonChk_eq,
      Option.bind_eq_bind, Option.pure_def, Option.some_bind, spreadReasonChk_eq]

theorem evalContract_inl_ne_nil {t : UnusualThresholds} {today : Int} {chain : Chain}
    {c : Contract} {rs : List String}
    (h : evalContract t today chain c = Sum.inl rs) : rs ≠ [] := by
  by_cases hnil : rejectionReasons t today chain c = []
  · simp [evalContract, hnil] at h
  · simp only [evalContract, hnil, if_neg, ite_false, Sum.inl.injEq] at h
    rw [← h]
    exact hnil

theorem evalContractChk_eq (t : UnusualThresholds) (today : Int) (chain : Chain)
    (c : Contract) :
    evalContractChk t today chain c = some (evalContract t today chain c) := by
  unfold evalContractChk evalContract
  rw [rejectionReasonsChk_eq]
  simp only [Option.bind_eq_bind, Option.pure_def, Option.some_bind]
  by_cases hnil : rejectionReasons t today chain c = []
  · rw [if_pos hnil, if_pos hnil]
    simp only [calculateMidPriceChk_eq, calcVolOiRatChk_eq, calculateScoreChk_eq,
      Option.bind_eq_bind, Option.pure_def, Option.some_bind]
  · rw [if_neg hnil, if_neg hnil]

theorem debugScoredChk_eq (today : Int) (c : Contract) :
    debugScoredChk today c = some (debugScored today c) := by
  unfold debugScoredChk debugScored
  by_cases hcond : (c.expiration_date.isNone || !truthyS c.contract_type) = true
  · rw [if_pos hcond, if_pos hcond]
    rfl
  · rw [if_neg hcond, if_neg hcond]
    rw [calculateMidPriceChk_eq]
    simp only [Option.bind_eq_bind, Option.pure_def, Option.some_bind]
    rcases orQ c.last_price (calculateMidPrice c) with _ | p
    · rfl
    · simp only [calcVolOiRatChk_eq, calculateScoreChk_eq, Option.bind_eq_bind, Option.pure_def, Option.some_bind]

theorem mapM_eq_some {a b : Type} {f : a → Option b} {g : a → b} {l : List a}
    (h : ∀ x ∈ l, f x = some (g x)) : l.mapM f = some (l.map g) := by
  induction l with
  | nil => rfl
  | cons x l ih =>
    rw [List.mapM_cons, h x (List.mem_cons_self x l),
      ih fun y hy => h y (List.mem_cons_of_mem x hy)]
    rfl

theorem buildDebugCandidatesChk_eq (contracts : List Contract) (chain : Chain)
    (today : Int) :
    buildDebugCandidatesChk contracts chain today =
      some (buildDebugCandidates contracts chain today) := by
  unfold buildDebugCandidatesChk buildDebugCandidates
  rw [mapM_eq_some fun c _ => debugScoredChk_eq today c]
  simp only [Option.bind_eq_bind, Option.pure_def, Option.some_bind]
  rw [List.filterMap_map]
  rfl

/-- C9: the pipeline is total — running it with every division and
logarithm guarded (`divChk`, `log10Chk` fail on zero divisors and
non-positive logarithm arguments) always succeeds and returns the same
result, and every rejected contract carries at least one recorded reason. -/
theorem c9_pipeline_total (chain : Chain) (s : Settings) (today : Int) :
    findUnusualActivityChk chain s today = some (findUnusualActivity chain s today) ∧
      ∀ c ∈ chain.contracts, ∀ rs,
        evalContract (getEffectiveThresholds s) today chain c = Sum.inl rs →
          rs ≠ [] := by
  constructor
  · simp only [findUnusualActivityChk, findUnusualActivity]
    rw [mapM_eq_some fun c _ => evalContractChk_eq (getEffectiveThresholds s) today chain c]
    simp only [Option.bind_eq_bind, Option.pure_def, Option.some_bind]
    have hpc : (chain.contracts.map fun c =>
        evalContract (getEffectiveThresholds s) today chain c).filterMap
          (fun r => match r with
            | Sum.inr cand => some cand
            | Sum.inl _ => none) = passingCandidates chain s today := by
      rw [List.filterMap_map]
      rfl
    rw [hpc]
    by_cases hdm : (s.debug_mode && (passingCandidates chain s today).isEmpty) = true
    · rw [if_pos hdm, if_pos hdm]
      exact buildDebugCandidatesChk_eq chain.contracts chain today
    · rw [if_neg hdm, if_neg hdm]
  · intro c _ rs h
    exact evalContract_inl_ne_nil h

/-- C9, witness: the checked pipeline agrees on the concrete chain, and the
rejected contract of `chain8` records a non-empty reason list. -/
theorem c9_pipeline_total_witness :
    findUnusualActivityChk chain8 settings8 0 =
        some (findUnusualActivity chain8 settings8 0) ∧
      contractA8 ∈ chain8.contracts ∧
      (["otm_pct"] : List String) ≠ [] := by
  refine ⟨(c9_pipeline_total chain8 settings8 0).1, by decide, ?_⟩
  exact (c9_pipeline_total chain8 settings8 0).2 contractA8 (by decide) ["otm_pct"]
    (by simp [evalContract, reasons8A])

/-! ### The normalizer on canonical records -/

theorem lookup_filter_ne {d : RawDict} {k k' : String} (h : ¬ k' = k) :
    List.lookup k' (d.filter fun p => p.1 ≠ k) = List.lookup k' d := by
  induction d with
  | nil => rfl
  | cons p d ih =>
    rcases p with ⟨pk, pv⟩
    by_cases hp : pk = k
    · rw [List.filter_cons_of_neg (by simp [hp]), ih, List.lookup_cons]
      have hbeq : (k' == pk) = false := by
        simp [hp, h]
      rw [hbeq]
    · rw [List.filter_cons_of_pos (by simp [hp]), List.lookup_cons, List.lookup_cons]
      cases k' == pk <;> [exact ih; rfl]

theorem dget_dset (d : RawDict) (k k' : String) (v : Option Val) :
    dget (dset d k v) k' = if k' = k then v else dget d k' := by
  unfold dget dset
  by_cases h : k' = k
  · rw [if_pos h, h, List.lookup_cons]
    simp
  · rw [if_neg h, List.lookup_cons]
    have hbeq : (k' == k) = false := by simp [h]
    rw [hbeq, lookup_filter_ne h]

theorem nestedGo_none (rest : List String) : nestedGo none rest = none := by
  cases rest <;> rfl

theorem getNested_cons (d : RawDict) (p : String) (rest : List String) :
    getNested d (p :: rest) = nestedGo (dget d p) rest := rfl

theorem getNested_single (d : RawDict) (p : String) : getNested d [p] = dget d p := rfl

theorem getNested_dead {d : RawDict} (hd : CanonShaped d) {p : String}
    (rest : List String) (hp : p ∉ canonKeys) : getNested d (p :: rest) = none := by
  rw [getNested_cons, hd p hp, nestedGo_none]

theorem firstOf_none {d : RawDict} {ks : List (List String)}
    (h : ∀ k ∈ ks, getNested d k = none) : firstOf d ks = none := by
  induction ks with
  | nil => rfl
  | cons k ks ih =>
    have hk := h k (List.mem_cons_self k ks)
    simp only [firstOf, hk]
    exact ih fun x hx => h x (List.mem_cons_of_mem k hx)

theorem normStep_keeps {d : RawDict} {field : String} {aliases : List (List String)}
    (hd : CanonShaped d)
    (hal : ∀ a ∈ aliases, (a ≠ [] ∧ a.headD "" ∉ canonKeys) ∨ a = [field]) :
    ∀ k, dget (normStep d field aliases) k = dget d k := by
  intro k
  unfold normStep
  by_cases hni : (dget d field).isNone = true
  · rw [if_pos hni]
    have hnone : dget d field = none := Option.isNone_iff_eq_none.mp hni
    have hfo : firstOf d aliases = none := by
      apply firstOf_none
      intro a ha
      rcases hal a ha with ⟨hne, hhead⟩ | rfl
      · rcases a with _ | ⟨p, rest⟩
        · exact absurd rfl hne
        · exact getNested_dead hd rest (by simpa using hhead)
      · rw [getNested_single]
        exact hnone
    rw [hfo, dget_dset]
    by_cases hk : k = field
    · rw [if_pos hk, hk, hnone]
    · rw [if_neg hk]
  · rw [if_neg hni]

theorem normStep_shaped {d : RawDict} {field : String} {aliases : List (List String)}
    (hd : CanonShaped d)
    (hal : ∀ a ∈ aliases, (a ≠ [] ∧ a.headD "" ∉ canonKeys) ∨ a = [field]) :
    CanonShaped (normStep d field aliases) :=
  fun k hk => (normStep_keeps hd hal k).trans (hd k hk)

/-- The alias table is well formed: every alias path is either headed by a
non-canonical key or is exactly the field's own name. -/
theorem normTable_ok : ∀ e ∈ normTable,
    ∀ a ∈ e.2, (a ≠ [] ∧ a.headD "" ∉ canonKeys) ∨ a = [e.1] := by
  decide

theorem foldl_normStep_keeps (tbl : List (String × List (List String)))
    (htbl : ∀ e ∈ tbl, ∀ a ∈ e.2, (a ≠ [] ∧ a.headD "" ∉ canonKeys) ∨ a = [e.1]) :
    ∀ d : RawDict, CanonShaped d →
      (∀ k, dget (tbl.foldl (fun d e => normStep d e.1 e.2) d) k = dget d k) ∧
        CanonShaped (tbl.foldl (fun d e => normStep d e.1 e.2) d) := by
  induction tbl with
  | nil => exact fun d hd => ⟨fun k => rfl, hd⟩
  | cons e tbl ih =>
    intro d hd
    have he := htbl e (List.mem_cons_self e tbl)
    have hrest := fun e' he' => htbl e' (List.mem_cons_of_mem e he')
    have hstep := normStep_keeps hd he
    have hshape := normStep_shaped hd he
    have hih := ih hrest (normStep d e.1 e.2) hshape
    exact ⟨fun k => (hih.1 k).trans (hstep k), hih.2⟩

theorem normalizeFields_keeps {d : RawDict} (hd : CanonShaped d) :
    ∀ k, dget (normalizeFields d) k = dget d k :=
  (foldl_normStep_keeps normTable normTable_ok d hd).1

theorem contractToDict_shaped (c : Contract) : CanonShaped (contractToDict c) := by
  intro k hk
  simp only [canonKeys, List.mem_cons, List.not_mem_nil, or_false, not_or] at hk
  obtain ⟨h1, h2, h3, h4, h5, h6, h7, h8, h9, h10, h11, h12, h13, h14, h15, h16,
    h17, h18⟩ := hk
  have b1 : (k == "options_ticker") = false := beq_eq_false_iff_ne.mpr h1
  have b2 : (k == "underlying_ticker") = false := beq_eq_false_iff_ne.mpr h2
  have b3 : (k == "expiration_date") = false := beq_eq_false_iff_ne.mpr h3
  have b4 : (k == "strike") = false := beq_eq_false_iff_ne.mpr h4
  have b5 : (k == "contract_type") = false := beq_eq_false_iff_ne.mpr h5
  have b6 : (k == "last_price") = false := beq_eq_false_iff_ne.mpr h6
  have b7 : (k == "bid") = false := beq_eq_false_iff_ne.mpr h7
  have b8 : (k == "ask") = false := beq_eq_false_iff_ne.mpr h8
  have b9 : (k == "volume") = false := beq_eq_false_iff_ne.mpr h9
  have b10 : (k == "open_interest") = false := beq_eq_false_iff_ne.mpr h10
  have b11 : (k == "sweep") = false := beq_eq_false_iff_ne.mpr h11
  have b12 : (k == "trade_count") = false := beq_eq_false_iff_ne.mpr h12
  have b13 : (k == "trade_size") = false := beq_eq_false_iff_ne.mpr h13
  have b14 : (k == "notional") = false := beq_eq_false_iff_ne.mpr h14
  have b15 : (k == "rvol") = false := beq_eq_false_iff_ne.mpr h15
  have b16 : (k == "iv_percentile") = false := beq_eq_false_iff_ne.mpr h16
  have b17 : (k == "unusual_score") = false := beq_eq_false_iff_ne.mpr h17
  have b18 : (k == "underlying_price") = false := beq_eq_false_iff_ne.mpr h18
  simp [contractToDict, dget, List.lookup, b1, b2, b3, b4, b5, b6, b7, b8, b9,
    b10, b11, b12, b13, b14, b15, b16, b17, b18]

theorem buildContract_congr {d d' : RawDict} (h : ∀ k, dget d k = dget d' k) :
    buildContract d = buildContract d' := by
  unfold buildContract typedOk extractContract
  simp only [h]

theorem decS_map (o : Option String) : decS (o.map Val.s) = some o := by
  cases o <;> rfl

theorem decI_map (o : Option Int) : decI (o.map Val.i) = some o := by
  cases o <;> rfl

theorem decQ_map (o : Option Rat) : decQ (o.map Val.q) = some o := by
  cases o <;> rfl

theorem decB_map (o : Option Bool) : decB (o.map Val.b) = some o := by
  cases o <;> rfl

theorem decD_map (o : Option Int) : decD (o.map Val.date) = some o := by
  cases o <;> rfl

theorem buildContract_toDict (c : Contract) : buildContract (contractToDict c) = some c := by
  have e1 : dget (contractToDict c) "options_ticker" = c.options_ticker.map Val.s := rfl
  have e2 : dget (contractToDict c) "underlying_ticker" =
    c.underlying_ticker.map Val.s := rfl
  have e3 : dget (contractToDict c) "expiration_date" =
    c.expiration_date.map Val.date := rfl
  have e4 : dget (contractToDict c) "strike" = c.strike.map Val.q := rfl
  have e5 : dget (contractToDict c) "contract_type" = c.contract_type.map Val.s := rfl
  have e6 : dget (contractToDict c) "last_price" = c.last_price.map Val.q := rfl
  have e7 : dget (contractToDict c) "bid" = c.bid.map Val.q := rfl
  have e8 : dget (contractToDict c) "ask" = c.ask.map Val.q := rfl
  have e9 : dget (contractToDict c) "volume" = c.volume.map Val.i := rfl
  have e10 : dget (contractToDict c) "open_interest" =
    c.open_interest.map Val.i := rfl
  have e11 : dget (contractToDict c) "sweep" = c.sweep.map Val.b := rfl
  have e12 : dget (contractToDict c) "trade_count" = c.trade_count.map Val.i := rfl
  have e13 : dget (contractToDict c) "trade_size" = c.trade_size.map Val.i := rfl
  have e14 : dget (contractToDict c) "notional" = c.notional.map Val.q := rfl
  have e15 : dget (contractToDict c) "rvol" = c.rvol.map Val.q := rfl
  have e16 : dget (contractToDict c) "iv_percentile" =
    c.iv_percentile.map Val.q := rfl
  have e17 : dget (contractToDict c) "unusual_score" =
    c.unusual_score.map Val.q := rfl
  have e18 : dget (contractToDict c) "underlying_price" =
    c.underlying_price.map Val.q := rfl
  unfold buildContract typedOk extractContract
  rw [e1, e2, e3, e4, e5, e6, e7, e8, e9, e10, e11, e12, e13, e14, e15, e16, e17, e18]
  simp only [decS_map, decI_map, decQ_map, decB_map, decD_map, Option.isSome_some,
    Bool.and_self, if_pos, ite_true, Option.getD_some]

/-- C6: normalizing a record already in canonical Contract form is a no-op:
building a contract from the canonical dictionary yields the contract back,
every canonical field reads the same after `normalize_fields`, and the
normalized record still builds the identical Contract. -/
theorem c6_normalize_idempotent (c : Contract) :
    buildContract (contractToDict c) = some c ∧
      (∀ k, dget (normalizeFields (contractToDict c)) k = dget (contractToDict c) k) ∧
      buildContract (normalizeFields (contractToDict c)) = some c := by
  have hkeep := normalizeFields_keeps (contractToDict_shaped c)
  exact ⟨buildContract_toDict c, hkeep,
    (buildContract_congr hkeep).trans (buildContract_toDict c)⟩

/-- C5, counterexample: the empty raw record resolves no ticker at all, yet
normalization succeeds and produces the all-null canonical Contract — there
is no "normalization failure" path in the code (every field of
`OptionContractSnapshot` is Optional). -/
theorem c5_counterexample :
    normalizeRecordSpec [] = none ∧
      buildContract (normalizeFields []) = some ({} : Contract) := by
  constructor
  · rfl
  · rfl

/-- C5, amended: a record whose (normalized) present values are well typed
always normalizes to a Contract — a missing mandatory-in-the-spec ticker
does not fail; the Contract simply carries a null ticker, and missing
optional fields default to null. -/
theorem c5_missing_fields_default (d : RawDict)
    (htyped : typedOk (normalizeFields d) = true) :
    ∃ c : Contract, buildContract (normalizeFields d) = some c ∧
      ((dget (normalizeFields d) "options_ticker").isNone = true →
        c.options_ticker = none) := by
  refine ⟨extractContract (normalizeFields d), ?_, ?_⟩
  · unfold buildContract
    rw [if_pos htyped]
  · intro hnone
    have hdg : dget (normalizeFields d) "options_ticker" = none :=
      Option.isNone_iff_eq_none.mp hnone
    simp only [extractContract, hdg]
    rfl

/-- C5, witness: the empty record is well typed after normalization and
yields a Contract with a null ticker. -/
theorem c5_missing_fields_default_witness :
    typedOk (normalizeFields []) = true ∧
      ∃ c : Contract, buildContract (normalizeFields []) = some c ∧
        ((dget (normalizeFields []) "options_ticker").isNone = true →
          c.options_ticker = none) :=
  ⟨by rfl, c5_missing_fields_default [] (by rfl)⟩

end Scanner
